import Mathlib

/-!
Verification development for the MYEquilibrium home-theatre controller.

The definitions below are shallow embeddings of the Python sources:
* `src/IrManager/IrProtocolDetector.py` (protocol detection),
* `src/IrManager/IrCodeDecoder.py` (NEC decoding),
* `src/RemoteController/RemoteController.py` (command dispatch and scenes),
* `src/BluetoothManager/agents/PairingAgentBase.py` and
  `src/BluetoothManager/agents/SecurePairingAgent.py` (pairing agent),
* `src/BluetoothManager/services/hid/RemoteHidService.py` and
  `.../descriptors/RemoteDescriptor.py` (remote HID service).

Python floats are embedded as rationals (the comparisons and arithmetic the
code performs are exact at every point the theorems touch), Python ints as
`Int`/`Nat`, fallible code as explicit error results, and effectful code as
state passing plus an explicit effect trace.
-/

namespace MYEquil

/-! ## Exact fractions

The Python sources use floats only for ratio arithmetic and comparisons, and
at every point a theorem below touches, that arithmetic is exact (halves,
quarters, tenths and counts — all binary-exactly representable or reached
without rounding).  Floats are therefore embedded as exact unnormalised
fractions over `Int`; every construction below keeps the denominator
positive, so comparisons are plain cross-multiplications. -/

structure Frac where
  num : Int
  den : Int
deriving DecidableEq, Repr

/-- Embed an integer. -/
def Frac.ofInt (n : Int) : Frac := ⟨n, 1⟩

/-- Addition. -/
def Frac.add (a b : Frac) : Frac := ⟨a.num * b.den + b.num * a.den, a.den * b.den⟩

/-- Subtraction. -/
def Frac.sub (a b : Frac) : Frac := ⟨a.num * b.den - b.num * a.den, a.den * b.den⟩

/-- Multiplication. -/
def Frac.mul (a b : Frac) : Frac := ⟨a.num * b.num, a.den * b.den⟩

/-- Division (the divisors below are all positive). -/
def Frac.div (a b : Frac) : Frac := ⟨a.num * b.den, a.den * b.num⟩

/-- `a <= b` for positive denominators. -/
def Frac.le (a b : Frac) : Bool := decide (a.num * b.den ≤ b.num * a.den)

/-- `a < b` for positive denominators. -/
def Frac.lt (a b : Frac) : Bool := decide (a.num * b.den < b.num * a.den)

/-- Value equality (`6/8 ≈ 3/4`) for positive denominators. -/
def Frac.eqv (a b : Frac) : Bool := decide (a.num * b.den = b.num * a.den)

/-- Python `min`. -/
def Frac.fmin (a b : Frac) : Frac := if Frac.le a b then a else b

/-- Python `max`. -/
def Frac.fmax (a b : Frac) : Frac := if Frac.le a b then b else a

/-! ## IR protocol detection (`src/IrManager/IrProtocolDetector.py`) -/

/-- `_approx(value, target, tolerance)`:
`target * (1 - tolerance) <= value <= target * (1 + tolerance)`. -/
def approx (value target tolerance : Frac) : Bool :=
  (target.mul ((Frac.ofInt 1).sub tolerance)).le value &&
  value.le (target.mul ((Frac.ofInt 1).add tolerance))

/-- `_match_ratio(values, target, tolerance)`: fraction of entries within
tolerance of the target; `0.0` for an empty list. -/
def match_frac (values : List Int) (target tolerance : Frac) : Frac :=
  if values = [] then Frac.ofInt 0
  else Frac.div ⟨values.countP (fun v => approx (Frac.ofInt v) target tolerance), 1⟩
    ⟨values.length, 1⟩

/-- `code[0]` (with a default that is never reached behind the length
guards). -/
def elem0 : List Int → Int
  | [] => 0
  | a :: _ => a

/-- `code[1]`. -/
def elem1 : List Int → Int
  | [] => 0
  | [_] => 0
  | _ :: b :: _ => b

/-- Elements at even indices (`code[0::2]`). -/
def evenElems : List Int → List Int
  | [] => []
  | [a] => [a]
  | a :: _ :: rest => a :: evenElems rest

/-- Elements at odd indices (`code[1::2]`). -/
def oddElems : List Int → List Int
  | [] => []
  | [_] => []
  | _ :: b :: rest => b :: oddElems rest

/-- Decimal literal `n/100` (so `pct 35` embeds the float `0.35`). -/
def pct (n : Int) : Frac := ⟨n, 100⟩

/-- The header-and-body confidence expression shared by the NEC/JVC/Denon
branches: `min(1.0, (mark_score + max(space0, space1)) / 2.0)`. -/
def body_confidence (mark_score space0 space1 : Frac) : Frac :=
  (Frac.ofInt 1).fmin ((mark_score.add (space0.fmax space1)).div (Frac.ofInt 2))

/-- `detect_protocol(code)` from `IrProtocolDetector.py`, returning the
`protocol` string and the `confidence` fraction.  The `details` diagnostics
dict of the source is not modelled (no claim observes it). -/
def detect_protocol (code : List Int) : String × Frac :=
  if code.length < 4 then ("unknown", Frac.ofInt 0)
  else
    let header_mark := Frac.ofInt (elem0 code)
    let header_space := Frac.ofInt (elem1 code)
    let marks := evenElems (code.drop 2)
    let spaces := oddElems (code.drop 2)
    if approx header_mark (Frac.ofInt 9000) (pct 20) &&
       approx header_space (Frac.ofInt 4500) (pct 25) then
      let mark_score := match_frac marks (Frac.ofInt 560) (pct 35)
      let space0 := match_frac spaces (Frac.ofInt 560) (pct 35)
      let space1 := match_frac spaces (Frac.ofInt 1690) (pct 35)
      ("NEC", body_confidence mark_score space0 space1)
    else if approx header_mark (Frac.ofInt 9000) (pct 20) &&
            approx header_space (Frac.ofInt 2250) (pct 30) then
      ("NEC_REPEAT", pct 80)
    else if approx header_mark (Frac.ofInt 8000) (pct 20) &&
            approx header_space (Frac.ofInt 4000) (pct 25) then
      let mark_score := match_frac marks (Frac.ofInt 560) (pct 35)
      let space0 := match_frac spaces (Frac.ofInt 560) (pct 35)
      let space1 := match_frac spaces (Frac.ofInt 1690) (pct 35)
      ("JVC", body_confidence mark_score space0 space1)
    else if approx header_mark (Frac.ofInt 2400) (pct 25) &&
            approx header_space (Frac.ofInt 600) (pct 30) then
      let mark600 := match_frac marks (Frac.ofInt 600) (pct 35)
      let mark1200 := match_frac marks (Frac.ofInt 1200) (pct 35)
      let space_score := match_frac spaces (Frac.ofInt 600) (pct 35)
      ("SONY_SIRC",
        (Frac.ofInt 1).fmin (((mark600.fmax mark1200).add space_score).div (Frac.ofInt 2)))
    else if approx header_mark (Frac.ofInt 2666) (pct 35) ||
            approx header_mark (Frac.ofInt 889) (pct 35) then
      ("RC5/RC6", pct 50)
    else if approx header_mark (Frac.ofInt 3200) (pct 30) &&
            approx header_space (Frac.ofInt 1600) (pct 30) then
      let mark_score := match_frac marks (Frac.ofInt 400) (pct 40)
      let space0 := match_frac spaces (Frac.ofInt 400) (pct 40)
      let space1 := match_frac spaces (Frac.ofInt 1200) (pct 40)
      ("DENON/SHARP", body_confidence mark_score space0 space1)
    else ("unknown", Frac.ofInt 0)

/-! ## IR code decoding (`src/IrManager/IrCodeDecoder.py`) -/

/-- The `IRProtocol` enumeration. -/
inductive IRProtocol
  | nec | extended_nec | jvc | sony_sirc | rc5 | rc6 | denon | sharp | unknown
deriving DecidableEq, Repr

/-- `DecodedIRCode` (the fields the claims observe; the string renderings and
the `details` dict of the source are not modelled). -/
structure DecodedIRCode where
  protocol : IRProtocol
  confidence : Frac
  raw_code : List Int
  device_bits : Nat
  command_bits : Nat
deriving DecidableEq, Repr

/-- `IRCodeDecoder.TOLERANCE = 0.25`. -/
def TOLERANCE : Frac := pct 25

/-- `_match_timing(actual, expected, tolerance)`:
`(expected - margin) <= actual <= (expected + margin)` with
`margin = expected * tolerance`. -/
def match_timing (actual : Int) (expected : Int) (tolerance : Frac) : Bool :=
  let margin := (Frac.ofInt expected).mul tolerance
  ((Frac.ofInt expected).sub margin).le (Frac.ofInt actual) &&
  (Frac.ofInt actual).le ((Frac.ofInt expected).add margin)

/-- `_extract_bits`: walk the spaces (odd indices); a long space appends `1`,
a short space appends `0`, anything else is skipped. -/
def extract_bits (marks_spaces : List Int) (short_space long_space : Int) : List Nat :=
  (oddElems marks_spaces).filterMap fun space =>
    if match_timing space long_space TOLERANCE then some 1
    else if match_timing space short_space TOLERANCE then some 0
    else none

/-- `_bits_to_int`: LSB-first accumulation (`result |= bit << i` over 0/1 bits). -/
def bits_to_int : List Nat → Nat
  | [] => 0
  | b :: rest => b + 2 * bits_to_int rest

/-- `IRCodeDecoder._try_nec(code)`. -/
def try_nec (code : List Int) : DecodedIRCode :=
  if code.length < 67 then ⟨.nec, Frac.ofInt 0, code, 0, 0⟩
  else
    let header_mark := elem0 code
    let header_space := elem1 code
    if !match_timing header_mark 9000 TOLERANCE then ⟨.nec, Frac.ofInt 0, code, 0, 0⟩
    else if !match_timing header_space 4500 TOLERANCE then ⟨.nec, Frac.ofInt 0, code, 0, 0⟩
    else
      let bits := extract_bits (code.drop 2) 560 1690
      if bits.length < 32 then ⟨.nec, pct 50, code, 0, 0⟩
      else
        let device_val := bits_to_int (bits.take 8)
        let device_inv := bits_to_int ((bits.drop 8).take 8)
        let command_val := bits_to_int ((bits.drop 16).take 8)
        let command_inv := bits_to_int ((bits.drop 24).take 8)
        let device_check := device_val ^^^ device_inv = 255
        let command_check := command_val ^^^ command_inv = 255
        let confidence : Frac := if device_check ∧ command_check then pct 90 else pct 75
        ⟨.nec, confidence, code, device_val, command_val⟩

/-- `IRCodeDecoder._try_extended_nec` (always confidence 0). -/
def try_extended_nec (code : List Int) : DecodedIRCode :=
  ⟨.extended_nec, Frac.ofInt 0, code, 0, 0⟩

/-- `IRCodeDecoder._try_jvc`. -/
def try_jvc (code : List Int) : DecodedIRCode :=
  if code.length < 4 then ⟨.jvc, Frac.ofInt 0, code, 0, 0⟩
  else
    let header_mark := elem0 code
    let header_space := elem1 code
    if match_timing header_mark 8400 TOLERANCE && match_timing header_space 4200 TOLERANCE then
      ⟨.jvc, pct 70, code, 0, 0⟩
    else ⟨.jvc, Frac.ofInt 0, code, 0, 0⟩

/-- `IRCodeDecoder._try_sony` (always confidence 0). -/
def try_sony (code : List Int) : DecodedIRCode := ⟨.sony_sirc, Frac.ofInt 0, code, 0, 0⟩

/-- `IRCodeDecoder._try_rc5` (always confidence 0). -/
def try_rc5 (code : List Int) : DecodedIRCode := ⟨.rc5, Frac.ofInt 0, code, 0, 0⟩

/-- `IRCodeDecoder._try_rc6` (always confidence 0). -/
def try_rc6 (code : List Int) : DecodedIRCode := ⟨.rc6, Frac.ofInt 0, code, 0, 0⟩

/-- `max(valid, key=confidence)` keeps the first element among ties. -/
def best_candidate (c : DecodedIRCode) (rest : List DecodedIRCode) : DecodedIRCode :=
  rest.foldl (fun acc x => if acc.confidence.lt x.confidence then x else acc) c

/-- `IRCodeDecoder.decode(code)`. -/
def decode (code : List Int) : DecodedIRCode :=
  if code.length < 4 then ⟨.unknown, Frac.ofInt 0, code, 0, 0⟩
  else
    let candidates := [try_nec code, try_extended_nec code, try_jvc code,
                       try_sony code, try_rc5 code, try_rc6 code]
    match candidates.filter (fun c => (Frac.ofInt 0).lt c.confidence) with
    | [] => ⟨.unknown, Frac.ofInt 0, code, 0, 0⟩
    | c :: rest => best_candidate c rest

/-- The literal pulse array of end-to-end test case 3 of the spec (also the
`moon_code` self-test array at the bottom of `IrCodeDecoder.py`). -/
def case3_pulses : List Int :=
  [9035, 4440, 611, 1633, 611, 515, 611, 515, 611, 515, 611, 515, 611, 515,
   611, 515, 611, 515, 611, 515, 611, 1633, 611, 1633, 611, 1633, 611, 1633,
   611, 1633, 611, 1633, 611, 1633, 611, 515, 611, 1633, 611, 1633, 611, 515,
   611, 515, 611, 515, 611, 515, 611, 515, 611, 1633, 611, 515, 611, 515,
   611, 1633, 611, 1633, 611, 1633, 611, 1633, 611, 1633, 611]

/-! ## Data model for the controller

The `Api/models` package is not part of the sources available here (only its
users are), so the record types below are modelled from the spec (section 3),
with only the variants and fields the `RemoteController` code reads. -/

/-- Modelled from the spec: the command classification
`{IR, BT, NETWORK, SCRIPT, INTEGRATION}` (`Api/models/CommandType.py` is not
in the sources). -/
inductive CommandType
  | IR | BLUETOOTH | NETWORK | SCRIPT | INTEGRATION
deriving DecidableEq, Repr

/-- Modelled from the spec: the command group tag; `INPUT` is the only group
the control plane inspects, all others are opaque
(`Api/models/CommandGroupType.py` is not in the sources). -/
inductive CommandGroupType
  | INPUT | OTHER
deriving DecidableEq, Repr

/-- Modelled from the spec: HTTP methods of a NETWORK command
(`Api/models/NetworkRequestType.py` is not in the sources). -/
inductive NetworkRequestType
  | GET | POST | PUT | PATCH | DELETE | HEAD
deriving DecidableEq, Repr

/-- Modelled from the spec: integration actions
(`Api/models/IntegrationAction.py` is not in the sources). -/
inductive IntegrationAction
  | TOGGLE_LIGHT | BRIGHTNESS_UP | BRIGHTNESS_DOWN
deriving DecidableEq, Repr

/-- Modelled from the spec: scene life-cycle states
(`Api/models/SceneStatus.py` is not in the sources). -/
inductive SceneStatus
  | STARTING | ACTIVE | STOPPING
deriving DecidableEq, Repr

/-- Modelled from the spec: the closed set of button roles; only the subset
the dispatcher and scene machine compare against is enumerated, `OTHER_ROLE`
standing for every remaining role (`Api/models/RemoteButton.py` is not in the
sources). -/
inductive RemoteButton
  | POWER_ON | POWER_OFF | POWER_TOGGLE
  | VOLUME_UP | VOLUME_DOWN | MUTE | SELECT | BACK | HOME | MENU
  | OTHER_ROLE
deriving DecidableEq, Repr

/-- Modelled from the spec: a persisted `Command` record with the fields the
control plane reads (`Api/models/Command.py` is not in the sources).  Exactly
one transport payload is populated per classification; unused payload fields
are `none`. -/
structure Command where
  id : Nat
  name : String
  device_id : Option Nat
  button : Option RemoteButton
  command_group : Option CommandGroupType
  type : CommandType
  ir_action : Option (List Int)
  bt_action : Option String
  bt_media_action : Option String
  method : Option NetworkRequestType
  host : String
  body : Option String
  integration_action : Option IntegrationAction
  integration_entity : Option String
deriving DecidableEq, Repr

/-- Modelled from the spec: a macro record.  The ORM exposes both the ordered
id list (`command_ids`, used by `execute_macro` and `stop_current_scene`) and
the resolved records (`commands`, used for the skip-set); both are carried. -/
structure MacroRecord where
  command_ids : List Nat
  commands : List Command
  delays : List Nat
deriving DecidableEq, Repr

/-- Modelled from the spec: a `Scene` record (`Api/models/Scene.py` is not in
the sources).  `macro_start`/`macro_stop` embed the source's start and stop
macro relations. -/
structure Scene where
  id : Nat
  name : String
  bluetooth_address : Option String
  keymap : Option String
  macro_start : Option MacroRecord
  macro_stop : Option MacroRecord
deriving DecidableEq, Repr

/-- Modelled from the spec: `DeviceState = {powered: bool, input: command_id | null}`
(`Api/models/Status.py` is not in the sources). -/
structure DevState where
  powered : Bool
  input : Option Nat
deriving DecidableEq, Repr

/-- The per-device state map; created lazily, so it is an association list
whose `state` accessor defaults to `{powered: false, input: null}`. -/
abbrev DeviceStates := List (Nat × DevState)

/-- Modelled from the spec: `devices.state(for_device_id=d)` — the recorded
state, or the lazily created default. -/
def DeviceStates.state (ds : DeviceStates) (d : Nat) : DevState :=
  (ds.lookup d).getD ⟨false, none⟩

/-- Modelled from the spec: `devices.set_state(d, new_power_state, new_input,
toggle_power)` — apply the requested mutations to the (lazily created) entry. -/
def DeviceStates.set_state (ds : DeviceStates) (d : Nat)
    (new_power : Option Bool) (new_input : Option Nat) (toggle : Bool) : DeviceStates :=
  let cur := ds.state d
  let p := match new_power with | some b => b | none => cur.powered
  let p := if toggle then !p else p
  let inp := match new_input with | some i => some i | none => cur.input
  (d, ⟨p, inp⟩) :: ds

/-- Modelled from the spec: the top-level observable `Status` record
(`Api/models/Status.py` is not in the sources). -/
structure StatusReport where
  devices : DeviceStates
  current_scene : Option Scene
  scene_status : Option SceneStatus
deriving DecidableEq, Repr

/-! ## Controller state and effect trace

`RemoteController` holds the status, the two keymaps, the command cache and
(through SQLModel sessions) the persistent store; the store and the on-disk
keymap files are embedded as association lists inside the state.  Every
outward interaction (transport emission, sleep, status callback, BT peer
operation, keymap load, log line) is recorded in an effect trace. -/

/-- Outward-visible effects of the control plane. -/
inductive Effect
  | irSend (pulses : List Int)
  | irSendRepeat (pulses : List Int)
  | btKeyClick (k : String)
  | btKeyHold (k : String)
  | btKeysRelease
  | btMediaClick (k : String)
  | btMediaHold (k : String)
  | btMediaRelease
  | netRequest (m : NetworkRequestType) (host : String) (body : Option String)
  | haToggle (entity : Option String)
  | haBrightnessUp
  | haBrightnessDown
  | logWarn
  | logCommandMissing (cid : Nat)
  | statusCb (s : StatusReport)
  | sleepMs (ms : Nat)
  | keymapLoaded (keymap_name : String)
  | btUnregister
  | btRegister
  | btConnect (addr : String)
  | btDisconnect (addr : String)
deriving DecidableEq, Repr

/-- Python exceptions that escape the controller methods. -/
inductive PyError
  | http (code : Nat)
  | attribute_error
  | file_not_found
deriving DecidableEq, Repr

/-- The controller state: dev flag, HA client presence, status, keymaps,
command cache, and the embedded store (`db_commands`, `db_scenes`) plus the
contents of the on-disk keymap files. -/
structure RCState where
  is_dev : Bool
  ha_configured : Bool
  status : StatusReport
  keymap : List (String × Nat)
  keymap_scene : List (String × Nat)
  cached_commands : List (Nat × Command)
  db_commands : List (Nat × Command)
  db_scenes : List (Nat × Scene)
  file_keymap_scenes : Option (List (String × Nat))
  file_keymaps : List (String × List (String × Nat))
deriving DecidableEq, Repr

/-- Result of running a controller method: the state and effect trace produced
up to the point the method returned or raised (`err = some e` means the
exception `e` propagated out after those effects). -/
structure Res where
  st : RCState
  eff : List Effect
  err : Option PyError
deriving DecidableEq, Repr

/-- Sequencing: on success continue with the accumulated trace, on an
exception stop (keeping the state and effects produced so far). -/
def Res.andThen (r : Res) (f : RCState → Res) : Res :=
  match r.err with
  | some _ => r
  | none => let r2 := f r.st; ⟨r2.st, r.eff ++ r2.eff, r2.err⟩

/-- `update_device_status`: mutate the device map, then fire the status
callback with the now-visible status. -/
def update_device_status (st : RCState) (d : Nat)
    (new_power : Option Bool) (new_input : Option Nat) (toggle : Bool) : Res :=
  let status := { st.status with devices := st.status.devices.set_state d new_power new_input toggle }
  ⟨{ st with status := status }, [.statusCb status], none⟩

/-- `set_state_for_command` (`RemoteController.py` lines 398-408): INPUT
commands set `(powered=true, input=id)`, then the button role adjusts the
power flag. -/
def set_state_for_command (st : RCState) (c : Command) : Res :=
  match c.device_id with
  | none => ⟨st, [], none⟩
  | some d =>
    let r1 : Res :=
      if c.command_group = some CommandGroupType.INPUT then
        update_device_status st d (some true) (some c.id) false
      else ⟨st, [], none⟩
    r1.andThen fun st1 =>
      match c.button with
      | some RemoteButton.POWER_ON => update_device_status st1 d (some true) none false
      | some RemoteButton.POWER_OFF => update_device_status st1 d (some false) none false
      | some RemoteButton.POWER_TOGGLE => update_device_status st1 d none none true
      | _ => ⟨st1, [], none⟩

/-- `set_states_for_commands`. -/
def set_states_for_commands (st : RCState) : List Command → Res
  | [] => ⟨st, [], none⟩
  | c :: rest => (set_state_for_command st c).andThen fun st1 => set_states_for_commands st1 rest

/-- `send_ir_command`: no-op in dev mode; raises HTTP 500 when the command
has no `ir_action`. -/
def send_ir_command (st : RCState) (c : Command) (press_without_release : Bool) : Res :=
  if st.is_dev then ⟨st, [], none⟩
  else
    match c.ir_action with
    | some pulses =>
      if press_without_release then ⟨st, [.irSendRepeat pulses], none⟩
      else ⟨st, [.irSend pulses], none⟩
    | none => ⟨st, [], some (.http 500)⟩

/-- `send_bt_command`: keyboard key, else media key, else HTTP 500. -/
def send_bt_command (st : RCState) (c : Command) (press_without_release release_only : Bool) : Res :=
  if st.is_dev then ⟨st, [], none⟩
  else
    match c.bt_action with
    | some k =>
      if release_only then ⟨st, [.btKeysRelease], none⟩
      else if press_without_release then ⟨st, [.btKeyHold k], none⟩
      else ⟨st, [.btKeyClick k], none⟩
    | none =>
      match c.bt_media_action with
      | some k =>
        if release_only then ⟨st, [.btMediaRelease], none⟩
        else if press_without_release then ⟨st, [.btMediaHold k], none⟩
        else ⟨st, [.btMediaClick k], none⟩
      | none => ⟨st, [], some (.http 500)⟩

/-- `send_network_command`: one-shot HTTP call; `httpx` timeouts and connect
errors are caught and swallowed in the source, so the call itself never
raises; a missing method raises HTTP 500. -/
def send_network_command (st : RCState) (c : Command) : Res :=
  match c.method with
  | some m => ⟨st, [.netRequest m c.host c.body], none⟩
  | none => ⟨st, [], some (.http 500)⟩

/-- `send_script_command`: always raises HTTP 400. -/
def send_script_command (st : RCState) (_c : Command) : Res :=
  ⟨st, [], some (.http 400)⟩

/-- `send_integration_command`: logged no-op without an HA client; silent
no-op on a missing action (the `match` falls through). -/
def send_integration_command (st : RCState) (c : Command) : Res :=
  if !st.ha_configured then ⟨st, [.logWarn], none⟩
  else
    match c.integration_action with
    | some .TOGGLE_LIGHT => ⟨st, [.haToggle c.integration_entity], none⟩
    | some .BRIGHTNESS_UP => ⟨st, [.haBrightnessUp], none⟩
    | some .BRIGHTNESS_DOWN => ⟨st, [.haBrightnessDown], none⟩
    | none => ⟨st, [], none⟩

/-- Transport selection by `command.type` (the `match` in `send_db_command`). -/
def dispatch_transport (st : RCState) (c : Command) (press_without_release : Bool) : Res :=
  match c.type with
  | .IR => send_ir_command st c press_without_release
  | .BLUETOOTH => send_bt_command st c press_without_release false
  | .NETWORK => send_network_command st c
  | .SCRIPT => send_script_command st c
  | .INTEGRATION => send_integration_command st c

/-- The `from_start` redundancy suppression of `send_db_command` (lines
153-160): skip when the device is already powered (POWER_ON/POWER_TOGGLE) or
already on the requested input (INPUT group). -/
def should_skip_start (st : RCState) (c : Command) : Bool :=
  match c.device_id with
  | none => false
  | some d =>
    let cur := st.status.devices.state d
    ((decide (c.button = some RemoteButton.POWER_ON) ||
      decide (c.button = some RemoteButton.POWER_TOGGLE)) && cur.powered) ||
    (decide (c.command_group = some CommandGroupType.INPUT) && decide (cur.input = some c.id))

/-- The `from_stop` redundancy suppression of `send_db_command` (lines
162-166): skip when the device is already powered off. -/
def should_skip_stop (st : RCState) (c : Command) : Bool :=
  match c.device_id with
  | none => false
  | some d =>
    let cur := st.status.devices.state d
    (decide (c.button = some RemoteButton.POWER_OFF) ||
     decide (c.button = some RemoteButton.POWER_TOGGLE)) && !cur.powered

/-- `send_db_command` (lines 151-184): suppression checks, transport
emission, then the state update when dispatched `from_start`/`from_stop`. -/
def send_db_command (st : RCState) (c : Command)
    (press_without_release from_start from_stop : Bool) : Res :=
  if from_start && should_skip_start st c then ⟨st, [], none⟩
  else if from_stop && should_skip_stop st c then ⟨st, [], none⟩
  else
    (dispatch_transport st c press_without_release).andThen fun st1 =>
      if from_start || from_stop then set_state_for_command st1 c
      else ⟨st1, [], none⟩

/-- `send_command` (lines 187-201): resolve the id through the cache, falling
back to the store (read-through); a missing id is logged, not raised. -/
def send_command (st : RCState) (cid : Nat)
    (press_without_release from_start from_stop : Bool) : Res :=
  match st.cached_commands.lookup cid with
  | some c => send_db_command st c press_without_release from_start from_stop
  | none =>
    match st.db_commands.lookup cid with
    | some c =>
      send_db_command { st with cached_commands := (cid, c) :: st.cached_commands }
        c press_without_release from_start from_stop
    | none => ⟨st, [.logCommandMissing cid], none⟩

/-- The loop body of `execute_macro` (lines 142-148): dispatch each command
id, sleeping `delays[index]` afterwards while an index remains in range. -/
def macro_steps (st : RCState) (ids : List Nat) (idx : Nat) (delays : List Nat)
    (from_start from_stop : Bool) : Res :=
  match ids with
  | [] => ⟨st, [], none⟩
  | cid :: rest =>
    (send_command st cid false from_start from_stop).andThen fun st1 =>
      Res.andThen
        ⟨st1, if idx < delays.length then [Effect.sleepMs (delays.getD idx 0)] else [], none⟩
        fun st2 => macro_steps st2 rest (idx + 1) delays from_start from_stop

/-- `execute_macro`. -/
def execute_macro_steps (st : RCState) (m : MacroRecord) (from_start from_stop : Bool) : Res :=
  macro_steps st m.command_ids 0 m.delays from_start from_stop

/-- Cache rebuild inside `load_key_map` (lines 460-466): reset, then cache
every truthy command id of the keymap that resolves in the store (later dict
writes shadow earlier ones, hence the prepend). -/
def build_cache (db : List (Nat × Command)) (km : List (String × Nat)) : List (Nat × Command) :=
  km.foldl
    (fun acc p =>
      if p.2 ≠ 0 then
        match db.lookup p.2 with
        | some c => (p.2, c) :: acc
        | none => acc
      else acc)
    []

/-- The second half of `load_key_map`: read the named keymap file (a missing
file raises `FileNotFoundError`), replace the command table, rebuild the
cache, re-register the RF callbacks. -/
def load_key_map_rest (st1 : RCState) (keymap_name : String) : Res :=
  match st1.file_keymaps.lookup keymap_name with
  | none => ⟨st1, [], some .file_not_found⟩
  | some km =>
    ⟨{ st1 with keymap := km, cached_commands := build_cache st1.db_commands km },
     [.keymapLoaded keymap_name], none⟩

/-- `load_key_map` (lines 450-471): read `keymap_scenes.json` (replacing the
scene table), then the named keymap file. -/
def load_key_map (st : RCState) (keymap_name : String) : Res :=
  match st.file_keymap_scenes with
  | none => ⟨st, [], some .file_not_found⟩
  | some ks => load_key_map_rest { st with keymap_scene := ks } keymap_name

/-- `_update_current_scene_status`: replace the scene status only, then fire
the status callback. -/
def update_current_scene_status (st : RCState) (s : Option SceneStatus) : Res :=
  let status := { st.status with scene_status := s }
  ⟨{ st with status := status }, [.statusCb status], none⟩

/-- `_update_current_scene` (lines 595-600): replace both scene fields, then
fire the status callback. -/
def update_current_scene (st : RCState) (sc : Option Scene) (s : Option SceneStatus) : Res :=
  let status := { st.status with current_scene := sc, scene_status := s }
  ⟨{ st with status := status }, [.statusCb status], none⟩

/-- The stop-macro loop of `stop_current_scene` (lines 435-443): enumerate
the stop macro's command ids; a step whose command resolves in the store and
passes the filter — device absent or outside the skip-set, and button
POWER_TOGGLE or POWER_OFF — is dispatched with `from_stop` and followed by
`delays[index]` while the original index stays in range. -/
def stop_macro_steps (st : RCState) (skip : List Nat) (ids : List Nat) (idx : Nat)
    (delays : List Nat) : Res :=
  match ids with
  | [] => ⟨st, [], none⟩
  | cid :: rest =>
    match st.db_commands.lookup cid with
    | none => stop_macro_steps st skip rest (idx + 1) delays
    | some c =>
      if (c.device_id.elim true fun d => decide (d ∉ skip)) &&
         (decide (c.button = some RemoteButton.POWER_TOGGLE) ||
          decide (c.button = some RemoteButton.POWER_OFF)) then
        (send_command st cid false false true).andThen fun st1 =>
          Res.andThen
            ⟨st1, if idx < delays.length then [Effect.sleepMs (delays.getD idx 0)] else [], none⟩
            fun st2 => stop_macro_steps st2 skip rest (idx + 1) delays
      else stop_macro_steps st skip rest (idx + 1) delays

/-- `stop_current_scene` (lines 414-447).  Reading `.id` off a null
`current_scene` raises `AttributeError`; a falsy id raises HTTP 404; then the
default keymap is loaded, the scene re-read from the store (404 when gone),
the STOPPING status published, the BT peer disconnected, the filtered stop
macro run, and the scene fields cleared. -/
def stop_current_scene (st : RCState) (skip : List Nat) : Res :=
  match st.status.current_scene with
  | none => ⟨st, [], some .attribute_error⟩
  | some cs =>
    if cs.id = 0 then ⟨st, [], some (.http 404)⟩
    else
      (load_key_map st "default").andThen fun st1 =>
        match st1.db_scenes.lookup cs.id with
        | none => ⟨st1, [], some (.http 404)⟩
        | some scene_db =>
          (update_current_scene_status st1 (some .STOPPING)).andThen fun st2 =>
            (match scene_db.bluetooth_address with
              | some addr =>
                if st2.is_dev then (⟨st2, [], none⟩ : Res)
                else (⟨st2, [.btDisconnect addr], none⟩ : Res)
              | none => (⟨st2, [], none⟩ : Res)).andThen fun st3 =>
              (match scene_db.macro_stop with
                | some m => stop_macro_steps st3 skip m.command_ids 0 m.delays
                | none => (⟨st3, [], none⟩ : Res)).andThen fun st4 =>
                update_current_scene st4 none none

/-- The skip-set computation of `start_scene` (lines 334-337): devices of the
incoming start macro's POWER_TOGGLE/POWER_ON commands. -/
def skip_set_of (m : MacroRecord) : List Nat :=
  m.commands.foldl
    (fun acc c =>
      match c.device_id with
      | some d =>
        if c.button = some RemoteButton.POWER_TOGGLE ∨ c.button = some RemoteButton.POWER_ON then
          d :: acc
        else acc
      | none => acc)
    []

/-- The tail of `start_scene` after the cross-scene handover (lines 341-361):
publish STARTING, swap the BT peer, run the start macro with `from_start`,
load the scene keymap, publish ACTIVE. -/
def start_scene_rest (st : RCState) (scene_db : Scene) : Res :=
  (update_current_scene st (some scene_db) (some .STARTING)).andThen fun st2 =>
    (match scene_db.bluetooth_address with
      | some addr =>
        if st2.is_dev then (⟨st2, [], none⟩ : Res)
        else (⟨st2, [.btUnregister, .btConnect addr, .btRegister], none⟩ : Res)
      | none => (⟨st2, [], none⟩ : Res)).andThen fun st3 =>
      (match scene_db.macro_start with
        | some m => execute_macro_steps st3 m true false
        | none => (⟨st3, [], none⟩ : Res)).andThen fun st4 =>
        (match scene_db.keymap with
          | some k => load_key_map st4 k
          | none => (⟨st4, [], none⟩ : Res)).andThen fun st5 =>
          update_current_scene st5 (some scene_db) (some .ACTIVE)

/-- `start_scene` (lines 324-361): 404 on an unknown id; when a scene is
active AND the incoming scene has a start macro, stop the outgoing scene with
the skip-set from the incoming start macro; then run the start sequence. -/
def start_scene (st : RCState) (scene_id : Nat) : Res :=
  match st.db_scenes.lookup scene_id with
  | none => ⟨st, [], some (.http 404)⟩
  | some scene_db =>
    (match st.status.current_scene, scene_db.macro_start with
      | some _, some m => stop_current_scene st (skip_set_of m)
      | _, _ => (⟨st, [], none⟩ : Res)).andThen fun st1 =>
      start_scene_rest st1 scene_db

/-- `set_current_scene` (lines 367-396): swap the BT peer (no dev-mode guard
here), recompute device states from the previous scene's stop commands and
the new scene's start commands (reading `.commands` off a null `start_macro`
raises `AttributeError`), publish ACTIVE, load the keymap. -/
def set_current_scene (st : RCState) (scene_id : Nat) : Res :=
  match st.db_scenes.lookup scene_id with
  | none => ⟨st, [], some (.http 404)⟩
  | some scene_db =>
    (match scene_db.bluetooth_address with
      | some addr => (⟨st, [.btUnregister, .btConnect addr, .btRegister], none⟩ : Res)
      | none => (⟨st, [], none⟩ : Res)).andThen fun st1 =>
      (match st1.status.current_scene with
        | some prev =>
          match prev.macro_stop with
          | some m =>
            if m.commands ≠ [] then set_states_for_commands st1 m.commands
            else ⟨st1, [], none⟩
          | none => ⟨st1, [], none⟩
        | none => (⟨st1, [], none⟩ : Res)).andThen fun st2 =>
        match scene_db.macro_start with
        | none => ⟨st2, [], some .attribute_error⟩
        | some m =>
          (if m.commands ≠ [] then set_states_for_commands st2 m.commands
           else (⟨st2, [], none⟩ : Res)).andThen fun st3 =>
            (update_current_scene st3 (some scene_db) (some .ACTIVE)).andThen fun st4 =>
              match scene_db.keymap with
              | some k => load_key_map st4 k
              | none => ⟨st4, [], none⟩

/-! ## Observations over traces -/

/-- The status snapshots pushed to the status WebSocket during a run. -/
def statusSnapshots (eff : List Effect) : List StatusReport :=
  eff.filterMap fun e =>
    match e with
    | .statusCb s => some s
    | _ => none

/-- A transport emission (IR burst, BT report mutation, HTTP call, HA call). -/
def Effect.isEmission : Effect → Bool
  | .irSend _ | .irSendRepeat _ => true
  | .btKeyClick _ | .btKeyHold _ | .btKeysRelease => true
  | .btMediaClick _ | .btMediaHold _ | .btMediaRelease => true
  | .netRequest _ _ _ => true
  | .haToggle _ | .haBrightnessUp | .haBrightnessDown => true
  | _ => false

/-- The emissions of a trace. -/
def emissions (eff : List Effect) : List Effect := eff.filter Effect.isEmission

/-- Spec section 8 invariant: `scene_status is null ⇔ current_scene is null`. -/
def statusOk (s : StatusReport) : Prop := s.scene_status = none ↔ s.current_scene = none

/-- The scene fields of two status records agree. -/
def sceneFieldsEq (a b : StatusReport) : Prop :=
  a.current_scene = b.current_scene ∧ a.scene_status = b.scene_status

/-- The scene operations of claim C4, as stimuli of the scene state machine. -/
inductive SceneOp
  | start (scene_id : Nat)
  | setCur (scene_id : Nat)
  | stop (skip : List Nat)
deriving DecidableEq, Repr

/-- One scene operation. -/
def run_op (st : RCState) : SceneOp → Res
  | .start i => start_scene st i
  | .setCur i => set_current_scene st i
  | .stop skip => stop_current_scene st skip

/-- A sequence of scene operations; the HTTP facade catches the exception of
a failed operation and the next request runs against the state it left, so
the trace is the concatenation of every operation's trace. -/
def run_ops (st : RCState) : List SceneOp → List Effect × RCState
  | [] => ([], st)
  | op :: rest =>
    ((run_op st op).eff ++ (run_ops (run_op st op).st rest).1,
     (run_ops (run_op st op).st rest).2)

/-! ## Derived predicates used by the theorems -/

/-- `ResOk r`: the invariant of claim C4 holds in the final state and in every
status snapshot of the trace. -/
def ResOk (r : Res) : Prop :=
  statusOk r.st.status ∧ ∀ s ∈ statusSnapshots r.eff, statusOk s

/-- `FramesScene st r`: the run left the scene fields untouched — they agree
with `st`'s in the final state and in every snapshot. -/
def FramesScene (st : RCState) (r : Res) : Prop :=
  sceneFieldsEq r.st.status st.status ∧ ∀ s ∈ statusSnapshots r.eff, sceneFieldsEq s st.status

/-- The per-step filter of the stop-macro loop, as a predicate on a command
id: its record resolves in the store, its device is absent or outside the
skip-set, and its button is POWER_TOGGLE or POWER_OFF. -/
def stop_pass (db : List (Nat × Command)) (skip : List Nat) (cid : Nat) : Bool :=
  match db.lookup cid with
  | none => false
  | some c =>
    (c.device_id.elim true fun d => decide (d ∉ skip)) &&
    (decide (c.button = some RemoteButton.POWER_TOGGLE) ||
     decide (c.button = some RemoteButton.POWER_OFF))

/-- The stop-macro loop restricted to an already-filtered list of
(index, command id) pairs: every listed step is dispatched with `from_stop`
and followed by its original-index delay. -/
def stop_steps_exec (st : RCState) (pairs : List (Nat × Nat)) (delays : List Nat) : Res :=
  match pairs with
  | [] => ⟨st, [], none⟩
  | (idx, cid) :: rest =>
    (send_command st cid false false true).andThen fun st1 =>
      Res.andThen
        ⟨st1, if idx < delays.length then [Effect.sleepMs (delays.getD idx 0)] else [], none⟩
        fun st2 => stop_steps_exec st2 rest delays

/-- The device state claim C3 predicts after a `from_start`/`from_stop`
dispatch, reading its rules in order: the INPUT rule first, then the button
rule. -/
def expected_state (st : RCState) (c : Command) (d : Nat) : DevState :=
  let mid : DevState :=
    if c.command_group = some CommandGroupType.INPUT then ⟨true, some c.id⟩
    else st.status.devices.state d
  match c.button with
  | some RemoteButton.POWER_ON => ⟨true, mid.input⟩
  | some RemoteButton.POWER_OFF => ⟨false, mid.input⟩
  | some RemoteButton.POWER_TOGGLE => ⟨!mid.powered, mid.input⟩
  | _ => mid

/-- A pulse array that matches none of the header fingerprints of
`detect_protocol` nor of the decoder strategies (the conjunction of the
negated header guards of both sources). -/
def no_fingerprint (code : List Int) : Bool :=
  let hm := Frac.ofInt (elem0 code)
  let hs := Frac.ofInt (elem1 code)
  !(approx hm (Frac.ofInt 9000) (pct 20) && approx hs (Frac.ofInt 4500) (pct 25)) &&
  !(approx hm (Frac.ofInt 9000) (pct 20) && approx hs (Frac.ofInt 2250) (pct 30)) &&
  !(approx hm (Frac.ofInt 8000) (pct 20) && approx hs (Frac.ofInt 4000) (pct 25)) &&
  !(approx hm (Frac.ofInt 2400) (pct 25) && approx hs (Frac.ofInt 600) (pct 30)) &&
  !(approx hm (Frac.ofInt 2666) (pct 35) || approx hm (Frac.ofInt 889) (pct 35)) &&
  !(approx hm (Frac.ofInt 3200) (pct 30) && approx hs (Frac.ofInt 1600) (pct 30)) &&
  !(match_timing (elem0 code) 9000 TOLERANCE && match_timing (elem1 code) 4500 TOLERANCE) &&
  !(match_timing (elem0 code) 8400 TOLERANCE && match_timing (elem1 code) 4200 TOLERANCE)

/-! ## Concrete fixtures for witnesses and counterexamples -/

/-- A command record with every optional payload empty. -/
def baseCommand : Command :=
  ⟨0, "", none, none, none, .IR, none, none, none, none, "", none, none, none⟩

/-- A fresh production controller: no scene, no devices observed, an empty
default keymap on disk. -/
def baseState : RCState :=
  { is_dev := false
    ha_configured := false
    status := ⟨[], none, none⟩
    keymap := []
    keymap_scene := []
    cached_commands := []
    db_commands := []
    db_scenes := []
    file_keymap_scenes := some []
    file_keymaps := [("default", [])] }

/-- C1 fixture: an IR POWER_ON command for device 17 (end-to-end test 1 of
the spec). -/
def exC1_cmd : Command :=
  { baseCommand with
    id := 5, device_id := some 17, button := some RemoteButton.POWER_ON,
    type := .IR, ir_action := some [9035, 4440, 611, 1633] }

/-- C2 fixture: the outgoing scene's stop-macro command — IR POWER_OFF for
device 2. -/
def exC2_powerOff : Command :=
  { baseCommand with
    id := 10, device_id := some 2, button := some RemoteButton.POWER_OFF,
    type := .IR, ir_action := some [1, 2, 3, 4] }

/-- C2 fixture: the active outgoing scene, with a stop macro. -/
def exC2_s0 : Scene :=
  ⟨1, "A", none, none, none, some ⟨[10], [exC2_powerOff], []⟩⟩

/-- C2 fixture: the incoming scene, with NO start macro. -/
def exC2_s1 : Scene := ⟨2, "B", none, none, none, none⟩

/-- C2 fixture: controller in `Active(s0)` with device 2 powered. -/
def exC2_st : RCState :=
  { baseState with
    status := ⟨[(2, ⟨true, none⟩)], some exC2_s0, some .ACTIVE⟩
    db_commands := [(10, exC2_powerOff)]
    db_scenes := [(1, exC2_s0), (2, exC2_s1)] }

/-- C2 witness fixture: an incoming scene WITH a start macro (a POWER_ON for
device 1), for the amended handover theorem. -/
def exC2_powerOn : Command :=
  { baseCommand with
    id := 11, device_id := some 1, button := some RemoteButton.POWER_ON,
    type := .IR, ir_action := some [11, 12, 13, 14] }

/-- C2 witness fixture: incoming scene with start macro. -/
def exC2_s2 : Scene :=
  ⟨3, "C", none, none, some ⟨[11], [exC2_powerOn], []⟩, none⟩

/-- C2 witness fixture: controller in `Active(s0)` that also knows scene 3. -/
def exC2_st2 : RCState :=
  { exC2_st with db_scenes := [(1, exC2_s0), (2, exC2_s1), (3, exC2_s2)] }

/-- C3 fixture: an IR POWER_ON command for device 4. -/
def exC3_cmd : Command :=
  { baseCommand with
    id := 9, device_id := some 4, button := some RemoteButton.POWER_ON,
    type := .IR, ir_action := some [1, 2, 3, 4] }

/-- C8 fixture: an IR command record without an executable action. -/
def exC8_broken : Command :=
  { baseCommand with id := 1, type := .IR, ir_action := none }

/-- C8 fixture: a well-formed IR command that follows the broken step. -/
def exC8_good : Command :=
  { baseCommand with id := 2, type := .IR, ir_action := some [5, 6, 7, 8] }

/-- C8 fixture: controller with both commands cached. -/
def exC8_st : RCState :=
  { baseState with cached_commands := [(1, exC8_broken), (2, exC8_good)] }

/-- C8 fixture: the macro whose first step fails. -/
def exC8_macro : MacroRecord := ⟨[1, 2], [exC8_broken, exC8_good], [50]⟩

end MYEquil

namespace MYEquil

/-! ## Pairing agent (`agents/PairingAgentBase.py`, `agents/SecurePairingAgent.py`)

The asyncio future per device path is embedded as an oracle: the outcome of a
wait is an input (`verdict b` for a `confirm_from_api` call that resolved the
future, `timedOut` for `asyncio.wait_for` expiring).  The pending-confirmation
map is the list of device paths with an unresolved future; the trace records
the emitted pairing events, plus the `asyncio.wait_for` invocation with the
timeout that bounds it. -/

/-- How an in-flight `_wait_for_confirmation` resolves. -/
inductive WaitOutcome
  | verdict (b : Bool)
  | timedOut
deriving DecidableEq, Repr

/-- Pairing events (the WS-facing callback payloads), plus the recorded
`asyncio.wait_for` invocation with its timeout in seconds. -/
inductive AgentEvent
  | waitStarted (device_path : String) (timeout_s : Nat)
  | authorization_request (device_path : String)
  | display_passkey (device_path : String) (pin : String)
  | confirm_passkey (device_path : String) (pin : String)
  | authorize_service (device_path : String) (uuid : String)
  | pairing_timeout (device_path : String)
deriving DecidableEq, Repr

/-- Agent call results: normal return, or the raised BlueZ error. -/
inductive AgentError
  | rejected
  | canceled
  | no_pending
deriving DecidableEq, Repr

/-- ASCII upper-casing of one character (the button and UUID strings the
sources compare are ASCII, so Python's `str.upper`/`str.lower` restrict to
the ASCII case maps). -/
def ascii_upper_char (c : Char) : Char :=
  if 'a' ≤ c ∧ c ≤ 'z' then Char.ofNat (c.toNat - 32) else c

/-- ASCII lower-casing of one character. -/
def ascii_lower_char (c : Char) : Char :=
  if 'A' ≤ c ∧ c ≤ 'Z' then Char.ofNat (c.toNat + 32) else c

/-- Python `str.upper()` on ASCII strings. -/
def ascii_upper (s : String) : String := String.mk (s.data.map ascii_upper_char)

/-- Python `str.lower()` on ASCII strings. -/
def ascii_lower (s : String) : String := String.mk (s.data.map ascii_lower_char)

/-- Zero-padded six-digit passkey rendering (`f"{passkey:06d}"`). -/
def pad6 (n : Nat) : String :=
  let s := toString n
  String.mk (List.replicate (6 - s.length) '0') ++ s

/-- `_wait_for_confirmation(device_path, timeout)` (lines 41-65): register the
future, await it under `asyncio.wait_for(timeout)`; a timeout logs, emits
`pairing_timeout` and yields `False`; the `finally` block removes the entry
in every case. -/
def wait_for_confirmation (pending : List String) (device_path : String) (timeout_s : Nat)
    (outcome : WaitOutcome) : Bool × List String × List AgentEvent :=
  let cleared := (device_path :: pending).filter (fun q => q ≠ device_path)
  match outcome with
  | .verdict b => (b, cleared, [.waitStarted device_path timeout_s])
  | .timedOut =>
    (false, cleared, [.waitStarted device_path timeout_s, .pairing_timeout device_path])

/-- `SecurePairingAgent.RequestAuthorization(device)` (lines 25-54): emit the
event, wait 30 s; a false verdict or timeout raises `org.bluez.Error.Rejected`. -/
def RequestAuthorization (pending : List String) (device_path : String)
    (outcome : WaitOutcome) : Option AgentError × List String × List AgentEvent :=
  let (confirmed, pending1, evs) := wait_for_confirmation pending device_path 30 outcome
  ((if confirmed then none else some .rejected), pending1,
   [.authorization_request device_path] ++ evs)

/-- `SecurePairingAgent.RequestConfirmation(device, passkey)` (lines
128-166): emit the passkey event, wait 30 s; a false verdict or timeout
raises `org.bluez.Error.Canceled`. -/
def RequestConfirmation (pending : List String) (device_path : String) (passkey : Nat)
    (outcome : WaitOutcome) : Option AgentError × List String × List AgentEvent :=
  let (confirmed, pending1, evs) := wait_for_confirmation pending device_path 30 outcome
  ((if confirmed then none else some .canceled), pending1,
   [.confirm_passkey device_path (pad6 passkey)] ++ evs)

/-- The HID service UUID auto-approved by `AuthorizeService`. -/
def hidServiceUuid : String := "00001812-0000-1000-8000-00805f9b34fb"

/-- `SecurePairingAgent.AuthorizeService(device, uuid)` (lines 168-204): the
HID UUID returns at once; any other service emits the event and waits 15 s; a
false verdict or timeout raises `org.bluez.Error.Rejected`. -/
def AuthorizeService (pending : List String) (device_path : String) (uuid : String)
    (outcome : WaitOutcome) : Option AgentError × List String × List AgentEvent :=
  if ascii_lower uuid = hidServiceUuid then (none, pending, [])
  else
    let (confirmed, pending1, evs) := wait_for_confirmation pending device_path 15 outcome
    ((if confirmed then none else some .rejected), pending1,
     [.authorize_service device_path uuid] ++ evs)

/-- `confirm_from_api(device_path, confirmed)` (lines 67-80): resolve the
pending future, or raise `ValueError` when none is pending for that path (the
`/bluetooth/pair/confirm` route maps the `ValueError` to HTTP 404). -/
def confirm_from_api (pending : List String) (device_path : String)
    (_confirmed : Bool) : Option AgentError :=
  if device_path ∈ pending then none else some .no_pending

/-! ## Remote HID service (`services/hid/RemoteHidService.py`,
`descriptors/RemoteDescriptor.py`) -/

/-- `REMOTE_BUTTONS`: button name to 16-bit report bit. -/
def REMOTE_BUTTONS : List (String × Nat) :=
  [("DPAD_UP", 0x0001), ("DPAD_DOWN", 0x0002), ("DPAD_LEFT", 0x0004),
   ("DPAD_RIGHT", 0x0008), ("SELECT", 0x0010), ("BACK", 0x0020),
   ("HOME", 0x0040), ("MENU", 0x0080), ("PLAY_PAUSE", 0x0100),
   ("STOP", 0x0200), ("REWIND", 0x0400), ("FAST_FORWARD", 0x0800),
   ("VOLUME_UP", 0x1000), ("VOLUME_DOWN", 0x2000), ("MUTE", 0x4000),
   ("POWER", 0x8000)]

/-- `get_button_value(button_name)`: upper-case, then table lookup; an
unknown name raises `ValueError` (embedded as `none`). -/
def get_button_value (button_name : String) : Option Nat :=
  REMOTE_BUTTONS.lookup (ascii_upper button_name)

/-- Outward effects of the HID service. -/
inductive HidEffect
  | notifyReport (lo hi : Nat)
  | logUnknownButton
deriving DecidableEq, Repr

/-- `_notify_button_state`: notify the two little-endian report bytes. -/
def notify_button_state (pressed_buttons : Nat) : HidEffect :=
  .notifyReport (pressed_buttons &&& 0xFF) ((pressed_buttons >>> 8) &&& 0xFF)

/-- `press_button(button_name)` (lines 109-121): OR the bit in and notify; a
`ValueError` from the lookup is caught and logged, nothing else happens.
State is the 16-bit `pressed_buttons` report value. -/
def press_button (pressed_buttons : Nat) (button_name : String) : Nat × List HidEffect :=
  match get_button_value button_name with
  | some v =>
    let pb := pressed_buttons ||| v
    (pb, [notify_button_state pb])
  | none => (pressed_buttons, [.logUnknownButton])

/-- `release_button(button_name)` (lines 123-135): clear the bit (`&= ~v`,
which on the 16-bit report state equals masking with the complement within
0xFFFF) and notify; an unknown name is caught and logged. -/
def release_button (pressed_buttons : Nat) (button_name : String) : Nat × List HidEffect :=
  match get_button_value button_name with
  | some v =>
    let pb := pressed_buttons &&& (0xFFFF ^^^ v)
    (pb, [notify_button_state pb])
  | none => (pressed_buttons, [.logUnknownButton])

/-! ## Theorems -/

/-- C10: `stop_current_scene` with no active scene raises before doing
anything: `self.status.current_scene.id` on a null scene raises
`AttributeError` first, so the state is untouched and the trace is empty —
no keymap reload, no Bluetooth disconnect, no emission, no status change. -/
theorem C10_stop_without_scene_atomic (st : RCState) (skip : List Nat)
    (h : st.status.current_scene = none) :
    stop_current_scene st skip = ⟨st, [], some .attribute_error⟩ := by
  unfold stop_current_scene
  rw [h]

/-- C10 witness: a fresh controller has no active scene and stopping it
raises while leaving state and trace untouched. -/
theorem C10_stop_without_scene_atomic_witness :
    stop_current_scene baseState [] = ⟨baseState, [], some PyError.attribute_error⟩ :=
  C10_stop_without_scene_atomic baseState [] rfl

/-- C9: an unknown button name makes `press_button` and `release_button`
log the `ValueError` and return with the 16-bit report state unchanged and
no report notification sent. -/
theorem C9_unknown_button_noop (pressed_buttons : Nat) (button_name : String)
    (h : get_button_value button_name = none) :
    press_button pressed_buttons button_name = (pressed_buttons, [.logUnknownButton])
    ∧ release_button pressed_buttons button_name = (pressed_buttons, [.logUnknownButton]) := by
  refine ⟨?_, ?_⟩ <;> simp [press_button, release_button, h]

/-- C9 witness: "NOT_A_BUTTON" is not a remote-profile button and pressing or
releasing it with three buttons held leaves the report state at 0x0013. -/
theorem C9_unknown_button_noop_witness :
    get_button_value "NOT_A_BUTTON" = none
    ∧ press_button 0x13 "NOT_A_BUTTON" = (0x13, [HidEffect.logUnknownButton])
    ∧ release_button 0x13 "NOT_A_BUTTON" = (0x13, [HidEffect.logUnknownButton]) :=
  ⟨by decide, (C9_unknown_button_noop 0x13 "NOT_A_BUTTON" (by decide)).1,
    (C9_unknown_button_noop 0x13 "NOT_A_BUTTON" (by decide)).2⟩

/-- C5 counterexample: on the literal test-3 pulse array the claim fails —
`detect_protocol` does return "NEC" but with confidence 3/4 < 0.85 (half the
data spaces match neither nominal space exclusively, so the body score is
1/2), and the decoder extracts device 0x01, command 0x06 from the LSB-first
bit groups, not 0x00/0xBF. -/
theorem C5_case3_counterexample :
    ¬((detect_protocol case3_pulses).1 = "NEC"
      ∧ (pct 85).le (detect_protocol case3_pulses).2 = true
      ∧ (decode case3_pulses).device_bits = 0x00
      ∧ (decode case3_pulses).command_bits = 0xBF) := by
  decide

/-- C5 amended: on the literal test-3 pulse array, `detect_protocol` returns
protocol "NEC" with confidence exactly 3/4 (below the claimed 0.85 bound),
and the decoder returns an NEC code with confidence 9/10 (both inverse
checks pass), device 0x01 and command 0x06. -/
theorem C5_case3_amended :
    (detect_protocol case3_pulses).1 = "NEC"
    ∧ Frac.eqv (detect_protocol case3_pulses).2 (pct 75) = true
    ∧ decode case3_pulses = ⟨.nec, pct 90, case3_pulses, 0x01, 0x06⟩ := by
  decide

/-- Helper: a failed NEC header check zeroes the NEC strategy. -/
theorem try_nec_conf_zero (code : List Int)
    (h : (match_timing (elem0 code) 9000 TOLERANCE &&
          match_timing (elem1 code) 4500 TOLERANCE) = false) :
    try_nec code = ⟨.nec, Frac.ofInt 0, code, 0, 0⟩ := by
  cases h1 : match_timing (elem0 code) 9000 TOLERANCE
  · simp [try_nec, h1]
  · have h2 : match_timing (elem1 code) 4500 TOLERANCE = false := by
      simpa [h1] using h
    simp [try_nec, h1, h2]

/-- Helper: a failed JVC header check zeroes the JVC strategy. -/
theorem try_jvc_conf_zero (code : List Int)
    (h : (match_timing (elem0 code) 8400 TOLERANCE &&
          match_timing (elem1 code) 4200 TOLERANCE) = false) :
    try_jvc code = ⟨.jvc, Frac.ofInt 0, code, 0, 0⟩ := by
  simp [try_jvc, h]

/-- C6: detection and decoding are total by construction (they are plain
functions over arbitrary integer pulse arrays), and every malformed input —
shorter than 4 entries, or matching no protocol header fingerprint — yields
protocol "unknown" with confidence 0 from both. -/
theorem C6_malformed_unknown (code : List Int) :
    (code.length < 4 →
      detect_protocol code = ("unknown", Frac.ofInt 0)
      ∧ decode code = ⟨.unknown, Frac.ofInt 0, code, 0, 0⟩)
    ∧ (no_fingerprint code = true →
      detect_protocol code = ("unknown", Frac.ofInt 0)
      ∧ decode code = ⟨.unknown, Frac.ofInt 0, code, 0, 0⟩) := by
  constructor
  · intro hlen
    constructor
    · simp [detect_protocol, hlen]
    · simp [decode, hlen]
  · intro h
    by_cases hlen : code.length < 4
    · exact ⟨by simp [detect_protocol, hlen], by simp [decode, hlen]⟩
    · simp only [no_fingerprint, Bool.and_eq_true, Bool.not_eq_true'] at h
      obtain ⟨⟨⟨⟨⟨⟨⟨g1, g2⟩, g3⟩, g4⟩, g5⟩, g6⟩, g7⟩, g8⟩ := h
      constructor
      · simp [detect_protocol, hlen, g1, g2, g3, g4, g5, g6]
      · simp [decode, hlen, try_nec_conf_zero code g7, try_jvc_conf_zero code g8,
              try_extended_nec, try_sony, try_rc5, try_rc6, Frac.lt, Frac.ofInt]

/-- C6 witness: the four-pulse array `[1, 1, 1, 1]` matches no fingerprint and
both functions return "unknown" at confidence 0 on it; the empty array is
shorter than 4 entries and does the same. -/
theorem C6_malformed_unknown_witness :
    no_fingerprint [1, 1, 1, 1] = true
    ∧ detect_protocol [1, 1, 1, 1] = ("unknown", Frac.ofInt 0)
    ∧ decode [1, 1, 1, 1] = ⟨.unknown, Frac.ofInt 0, [1, 1, 1, 1], 0, 0⟩
    ∧ detect_protocol [] = ("unknown", Frac.ofInt 0)
    ∧ decode [] = ⟨.unknown, Frac.ofInt 0, [], 0, 0⟩ :=
  ⟨by decide,
    ((C6_malformed_unknown [1, 1, 1, 1]).2 (by decide)).1,
    ((C6_malformed_unknown [1, 1, 1, 1]).2 (by decide)).2,
    ((C6_malformed_unknown []).1 (by decide)).1,
    ((C6_malformed_unknown []).1 (by decide)).2⟩

/-- C7: every pairing verdict wait is bounded — `RequestAuthorization` and
`RequestConfirmation` wait at most 30 s, `AuthorizeService` on a non-HID
service at most 15 s, while the HID UUID is approved immediately with no
wait, no event and no change to the pending map; on a timeout the
`pairing_timeout` event is emitted, the entry leaves the pending map and the
call raises (Rejected for authorization and service, Canceled for passkey
confirmation); `confirm_from_api` with no pending verdict for the path
raises the `ValueError` the confirm route surfaces as HTTP 404 NotFound. -/
theorem C7_pairing_waits_bounded (pending : List String) (device_path uuid : String)
    (passkey : Nat) (outcome : WaitOutcome) (verdict : Bool) :
    (AgentEvent.waitStarted device_path 30 ∈ (RequestAuthorization pending device_path outcome).2.2)
    ∧ (AgentEvent.waitStarted device_path 30
        ∈ (RequestConfirmation pending device_path passkey outcome).2.2)
    ∧ (ascii_lower uuid ≠ hidServiceUuid →
        AgentEvent.waitStarted device_path 15
          ∈ (AuthorizeService pending device_path uuid outcome).2.2)
    ∧ (ascii_lower uuid = hidServiceUuid →
        AuthorizeService pending device_path uuid outcome = (none, pending, []))
    ∧ (outcome = .timedOut →
        (RequestAuthorization pending device_path outcome).1 = some .rejected
        ∧ device_path ∉ (RequestAuthorization pending device_path outcome).2.1
        ∧ AgentEvent.pairing_timeout device_path
            ∈ (RequestAuthorization pending device_path outcome).2.2
        ∧ (RequestConfirmation pending device_path passkey outcome).1 = some .canceled
        ∧ device_path ∉ (RequestConfirmation pending device_path passkey outcome).2.1
        ∧ AgentEvent.pairing_timeout device_path
            ∈ (RequestConfirmation pending device_path passkey outcome).2.2
        ∧ (ascii_lower uuid ≠ hidServiceUuid →
            (AuthorizeService pending device_path uuid outcome).1 = some .rejected
            ∧ device_path ∉ (AuthorizeService pending device_path uuid outcome).2.1
            ∧ AgentEvent.pairing_timeout device_path
                ∈ (AuthorizeService pending device_path uuid outcome).2.2))
    ∧ (device_path ∉ pending →
        confirm_from_api pending device_path verdict = some .no_pending) := by
  refine ⟨?_, ?_, ?_, ?_, ?_, ?_⟩
  · cases outcome <;>
      simp [RequestAuthorization, wait_for_confirmation]
  · cases outcome <;>
      simp [RequestConfirmation, wait_for_confirmation]
  · intro hu
    cases outcome <;>
      simp [AuthorizeService, wait_for_confirmation, hu]
  · intro hu
    simp [AuthorizeService, hu]
  · rintro rfl
    refine ⟨?_, ?_, ?_, ?_, ?_, ?_, ?_⟩ <;>
      try simp [RequestAuthorization, RequestConfirmation, wait_for_confirmation,
        List.mem_filter]
    intro hu
    refine ⟨?_, ?_, ?_⟩ <;>
      simp [AuthorizeService, wait_for_confirmation, hu, List.mem_filter]
  · intro hp
    simp [confirm_from_api, hp]

/-- C7 witness: a timed-out service authorization for a non-HID UUID, the
HID fast path, and a confirm with nothing pending, all at concrete inputs. -/
theorem C7_pairing_waits_bounded_witness :
    (AgentEvent.waitStarted "/org/bluez/hci0/dev_AA" 30
      ∈ (RequestAuthorization [] "/org/bluez/hci0/dev_AA" .timedOut).2.2)
    ∧ (AgentEvent.waitStarted "/org/bluez/hci0/dev_AA" 15
      ∈ (AuthorizeService [] "/org/bluez/hci0/dev_AA" "1234" .timedOut).2.2)
    ∧ (AuthorizeService [] "/org/bluez/hci0/dev_AA"
        "00001812-0000-1000-8000-00805f9b34fb" .timedOut = (none, [], []))
    ∧ (AuthorizeService [] "/org/bluez/hci0/dev_AA" "1234" .timedOut).1
        = some AgentError.rejected
    ∧ confirm_from_api [] "/org/bluez/hci0/dev_AA" true = some AgentError.no_pending :=
  ⟨(C7_pairing_waits_bounded [] "/org/bluez/hci0/dev_AA" "1234" 42 .timedOut true).1,
    (C7_pairing_waits_bounded [] "/org/bluez/hci0/dev_AA" "1234" 42 .timedOut true).2.2.1
      (by decide),
    (C7_pairing_waits_bounded [] "/org/bluez/hci0/dev_AA"
      "00001812-0000-1000-8000-00805f9b34fb" 42 .timedOut true).2.2.2.1 (by decide),
    ((C7_pairing_waits_bounded [] "/org/bluez/hci0/dev_AA" "1234" 42 .timedOut true).2.2.2.2.1
      rfl).2.2.2.2.2.2 (by decide) |>.1,
    (C7_pairing_waits_bounded [] "/org/bluez/hci0/dev_AA" "1234" 42 .timedOut true).2.2.2.2.2
      (by decide)⟩

/-- C8 counterexample: a two-step macro whose first command record has no
executable action aborts — the raised HTTP 500 propagates out of the macro
loop, the second (well-formed) step is never dispatched and no emission at
all is produced, where the claim promised the steps after the failing one
would still run. -/
theorem C8_step_failure_counterexample :
    (execute_macro_steps exC8_st exC8_macro false false).err = some (.http 500)
    ∧ (execute_macro_steps exC8_st exC8_macro false false).eff = [] := by
  decide

/-- C8 amended: a step whose command id resolves neither in the cache nor in
the store is only logged and the macro continues with the following steps
after the configured delay, and network transport failures are swallowed
inside the network send; but a step that raises — such as a command record
without an executable action — aborts the macro, and the steps after it are
not dispatched. -/
theorem C8_step_failure_amended (st : RCState) (cid : Nat) (rest : List Nat) (idx : Nat)
    (delays : List Nat) (from_start from_stop : Bool) (c : Command) (m : NetworkRequestType) :
    (st.cached_commands.lookup cid = none → st.db_commands.lookup cid = none →
      macro_steps st (cid :: rest) idx delays from_start from_stop
        = Res.andThen
            ⟨st, Effect.logCommandMissing cid ::
              (if idx < delays.length then [Effect.sleepMs (delays.getD idx 0)] else []), none⟩
            (fun st1 => macro_steps st1 rest (idx + 1) delays from_start from_stop))
    ∧ ((send_command st cid false from_start from_stop).err.isSome = true →
      macro_steps st (cid :: rest) idx delays from_start from_stop
        = send_command st cid false from_start from_stop)
    ∧ (c.method = some m →
      send_network_command st c = ⟨st, [.netRequest m c.host c.body], none⟩) := by
  refine ⟨?_, ?_, ?_⟩
  · intro h1 h2
    simp [macro_steps, send_command, h1, h2, Res.andThen]
  · intro h
    unfold macro_steps
    rcases hr : send_command st cid false from_start from_stop with ⟨st', eff', err'⟩
    rw [hr] at h
    cases err' with
    | none => simp at h
    | some e => simp [Res.andThen]
  · intro h
    simp [send_network_command, h]

/-- C8 witness: a missing command id (7) is logged and the loop continues,
and the broken first step of the C8 fixture aborts its macro. -/
theorem C8_step_failure_amended_witness :
    (macro_steps baseState [7] 0 [] false false
      = Res.andThen ⟨baseState, [Effect.logCommandMissing 7], none⟩
          (fun st1 => macro_steps st1 [] 1 [] false false))
    ∧ (macro_steps exC8_st [1, 2] 0 [50] false false = send_command exC8_st 1 false false false)
    ∧ (send_network_command baseState
        { baseCommand with type := .NETWORK, method := some .GET, host := "http://h" }
        = ⟨baseState, [.netRequest .GET "http://h" none], none⟩) :=
  ⟨by
      have h := (C8_step_failure_amended baseState 7 [] 0 [] false false baseCommand .GET).1
        (by decide) (by decide)
      simpa using h,
    (C8_step_failure_amended exC8_st 1 [2] 0 [50] false false baseCommand .GET).2.1 (by decide),
    (C8_step_failure_amended baseState 7 [] 0 [] false false
      { baseCommand with type := .NETWORK, method := some .GET, host := "http://h" } .GET).2.2
      rfl⟩

/-! ### Frame lemmas -/

/-- Scene-field agreement is reflexive. -/
theorem sceneFieldsEq_refl (a : StatusReport) : sceneFieldsEq a a := ⟨rfl, rfl⟩

/-- Scene-field agreement is transitive. -/
theorem sceneFieldsEq_trans {a b c : StatusReport}
    (h1 : sceneFieldsEq a b) (h2 : sceneFieldsEq b c) : sceneFieldsEq a c :=
  ⟨h1.1.trans h2.1, h1.2.trans h2.2⟩

/-- The scene invariant transfers along scene-field agreement. -/
theorem statusOk_of_sceneFieldsEq {a b : StatusReport}
    (h : sceneFieldsEq a b) (hb : statusOk b) : statusOk a := by
  unfold statusOk at *
  rw [h.1, h.2]
  exact hb

/-- A run that returns the input state with a snapshot-free trace frames the
scene fields. -/
theorem framesScene_of_nil (st : RCState) (eff : List Effect) (err : Option PyError)
    (h : statusSnapshots eff = []) : FramesScene st ⟨st, eff, err⟩ := by
  refine ⟨sceneFieldsEq_refl _, ?_⟩
  intro s hs
  simp only [h] at hs
  cases hs

/-- Snapshots distribute over trace concatenation. -/
theorem statusSnapshots_append (a b : List Effect) :
    statusSnapshots (a ++ b) = statusSnapshots a ++ statusSnapshots b := by
  simp [statusSnapshots]

/-- `Res.andThen` preserves scene-field framing. -/
theorem andThen_frames {st : RCState} {r : Res} {f : RCState → Res}
    (h1 : FramesScene st r) (h2 : ∀ st1, FramesScene st1 (f st1)) :
    FramesScene st (r.andThen f) := by
  unfold Res.andThen
  cases he : r.err
  · obtain ⟨ha, hb⟩ := h1
    obtain ⟨hc, hd⟩ := h2 r.st
    refine ⟨sceneFieldsEq_trans hc ha, ?_⟩
    intro s hs
    rw [statusSnapshots_append] at hs
    rcases List.mem_append.mp hs with hs | hs
    · exact hb s hs
    · exact sceneFieldsEq_trans (hd s hs) ha
  · simpa using h1

/-- The continuation of `Res.andThen` only matters at the reached state. -/
theorem andThen_congr {r : Res} {f g : RCState → Res}
    (h : f r.st = g r.st) : r.andThen f = r.andThen g := by
  unfold Res.andThen
  cases r.err <;> simp [h]

/-- `update_device_status` only touches the device map. -/
theorem update_device_status_frames (st : RCState) (d : Nat)
    (np : Option Bool) (ni : Option Nat) (t : Bool) :
    FramesScene st (update_device_status st d np ni t) := by
  refine ⟨⟨rfl, rfl⟩, ?_⟩
  intro s hs
  simp only [update_device_status, statusSnapshots, List.filterMap] at hs
  simp at hs
  subst hs
  exact ⟨rfl, rfl⟩

/-- `set_state_for_command` only touches the device map. -/
theorem set_state_for_command_frames (st : RCState) (c : Command) :
    FramesScene st (set_state_for_command st c) := by
  unfold set_state_for_command
  cases c.device_id
  · exact framesScene_of_nil st [] none rfl
  · apply andThen_frames
    · split
      · exact update_device_status_frames ..
      · exact framesScene_of_nil st [] none rfl
    · intro st1
      cases c.button with
      | none => exact framesScene_of_nil st1 [] none rfl
      | some b =>
        cases b <;>
          first
          | exact update_device_status_frames ..
          | exact framesScene_of_nil st1 [] none rfl

/-- `set_states_for_commands` only touches the device map. -/
theorem set_states_for_commands_frames (cmds : List Command) :
    ∀ st : RCState, FramesScene st (set_states_for_commands st cmds) := by
  induction cmds with
  | nil => intro st; exact framesScene_of_nil st [] none rfl
  | cons c rest ih =>
    intro st
    exact andThen_frames (set_state_for_command_frames st c) (fun st1 => ih st1)

/-- Transports return the state unchanged. -/
theorem dispatch_transport_st (st : RCState) (c : Command) (p : Bool) :
    (dispatch_transport st c p).st = st := by
  unfold dispatch_transport send_ir_command send_bt_command send_network_command
    send_script_command send_integration_command
  repeat' split
  all_goals rfl

/-- Transports publish no status snapshot. -/
theorem dispatch_transport_snapshots (st : RCState) (c : Command) (p : Bool) :
    statusSnapshots (dispatch_transport st c p).eff = [] := by
  unfold dispatch_transport send_ir_command send_bt_command send_network_command
    send_script_command send_integration_command
  repeat' split
  all_goals rfl

/-- Transports frame the scene fields. -/
theorem dispatch_transport_frames (st : RCState) (c : Command) (p : Bool) :
    FramesScene st (dispatch_transport st c p) := by
  refine ⟨?_, ?_⟩
  · rw [dispatch_transport_st]
    exact sceneFieldsEq_refl _
  · intro s hs
    rw [dispatch_transport_snapshots] at hs
    cases hs

/-- `send_db_command` only touches the device map (and the cache upstream). -/
theorem send_db_command_frames (st : RCState) (c : Command) (p fs fsp : Bool) :
    FramesScene st (send_db_command st c p fs fsp) := by
  unfold send_db_command
  split
  · exact framesScene_of_nil st [] none rfl
  · split
    · exact framesScene_of_nil st [] none rfl
    · apply andThen_frames (dispatch_transport_frames st c p)
      intro st1
      split
      · exact set_state_for_command_frames st1 c
      · exact framesScene_of_nil st1 [] none rfl

/-- `send_command` only touches the device map and the cache. -/
theorem send_command_frames (st : RCState) (cid : Nat) (p fs fsp : Bool) :
    FramesScene st (send_command st cid p fs fsp) := by
  unfold send_command
  split
  · exact send_db_command_frames ..
  · split
    · exact send_db_command_frames ..
    · exact framesScene_of_nil st [Effect.logCommandMissing cid] none rfl

/-- The macro loop only touches the device map and the cache. -/
theorem macro_steps_frames (ids : List Nat) :
    ∀ (st : RCState) (idx : Nat) (delays : List Nat) (fs fsp : Bool),
      FramesScene st (macro_steps st ids idx delays fs fsp) := by
  induction ids with
  | nil => intro st idx delays fs fsp; exact framesScene_of_nil st [] none rfl
  | cons cid rest ih =>
    intro st idx delays fs fsp
    apply andThen_frames (send_command_frames ..)
    intro st1
    apply andThen_frames (framesScene_of_nil st1 _ none ?_)
    · intro st2
      exact ih st2 (idx + 1) delays fs fsp
    · split <;> rfl

/-- The stop-macro loop only touches the device map and the cache. -/
theorem stop_macro_steps_frames (ids : List Nat) :
    ∀ (st : RCState) (skip : List Nat) (idx : Nat) (delays : List Nat),
      FramesScene st (stop_macro_steps st skip ids idx delays) := by
  induction ids with
  | nil => intro st skip idx delays; exact framesScene_of_nil st [] none rfl
  | cons cid rest ih =>
    intro st skip idx delays
    unfold stop_macro_steps
    split
    · exact ih st skip (idx + 1) delays
    · split
      · apply andThen_frames (send_command_frames ..)
        intro st1
        apply andThen_frames (framesScene_of_nil st1 _ none ?_)
        · intro st2
          exact ih st2 skip (idx + 1) delays
        · split <;> rfl
      · exact ih st skip (idx + 1) delays

/-- `load_key_map` leaves the whole status untouched and publishes no
snapshot. -/
theorem load_key_map_status (st : RCState) (k : String) :
    (load_key_map st k).st.status = st.status
    ∧ statusSnapshots (load_key_map st k).eff = [] := by
  unfold load_key_map load_key_map_rest
  repeat' split
  all_goals exact ⟨rfl, rfl⟩

/-- Helper: the state-update pass emits only status snapshots, never a
transport emission. -/
theorem set_state_emissions (st : RCState) (c : Command) :
    emissions (set_state_for_command st c).eff = [] := by
  rcases hd : c.device_id with _ | d
  · simp [set_state_for_command, hd, emissions]
  · by_cases hg : c.command_group = some CommandGroupType.INPUT <;>
      rcases hb : c.button with _ | b
    · simp [set_state_for_command, hd, hg, hb, update_device_status, Res.andThen,
        emissions, Effect.isEmission]
    · cases b <;>
        simp [set_state_for_command, hd, hg, hb, update_device_status, Res.andThen,
          emissions, Effect.isEmission]
    · simp [set_state_for_command, hd, hg, hb, update_device_status, Res.andThen,
        emissions, Effect.isEmission]
    · cases b <;>
        simp [set_state_for_command, hd, hg, hb, update_device_status, Res.andThen,
          emissions, Effect.isEmission]

/-- Helper: the device state produced by the state-update pass is the one the
spec's ordered rules predict. -/
theorem set_state_spec (st : RCState) (c : Command) (d : Nat)
    (hdev : c.device_id = some d) :
    (set_state_for_command st c).st.status.devices.state d = expected_state st c d := by
  by_cases hg : c.command_group = some CommandGroupType.INPUT <;>
    rcases hb : c.button with _ | b
  · simp [set_state_for_command, expected_state, hdev, hg, hb, update_device_status,
      Res.andThen, DeviceStates.set_state, DeviceStates.state, List.lookup]
  · cases b <;>
      simp [set_state_for_command, expected_state, hdev, hg, hb, update_device_status,
        Res.andThen, DeviceStates.set_state, DeviceStates.state, List.lookup]
  · simp [set_state_for_command, expected_state, hdev, hg, hb, update_device_status,
      Res.andThen, DeviceStates.set_state, DeviceStates.state, List.lookup]
  · cases b <;>
      simp [set_state_for_command, expected_state, hdev, hg, hb, update_device_status,
        Res.andThen, DeviceStates.set_state, DeviceStates.state, List.lookup]

/-- Helper: a POWER_ON command leaves its device powered after the
state-update pass. -/
theorem set_state_powered_on (st : RCState) (c : Command) (d : Nat)
    (hdev : c.device_id = some d) (hb : c.button = some RemoteButton.POWER_ON) :
    ((set_state_for_command st c).st.status.devices.state d).powered = true := by
  rw [set_state_spec st c d hdev]
  unfold expected_state
  rw [hb]

/-- C1: with `from_start`, a POWER_ON/POWER_TOGGLE command for an
already-powered device, or an INPUT command whose input is already selected,
is skipped — nothing is emitted on any transport, the state is returned
untouched and no status callback fires; consequently a POWER_ON dispatch
with `from_start` against an unpowered device emits exactly once across two
successive dispatches (here for an IR command in production mode), the
second dispatch being a complete no-op, and the device stays powered. -/
theorem C1_from_start_suppression (st : RCState) (c : Command) (d : Nat) (p : Bool)
    (pulses : List Int) (hdev : c.device_id = some d) :
    ((c.button = some RemoteButton.POWER_ON ∨ c.button = some RemoteButton.POWER_TOGGLE) →
      (st.status.devices.state d).powered = true →
      send_db_command st c p true false = ⟨st, [], none⟩)
    ∧ (c.command_group = some CommandGroupType.INPUT →
      (st.status.devices.state d).input = some c.id →
      send_db_command st c p true false = ⟨st, [], none⟩)
    ∧ (c.type = .IR → c.ir_action = some pulses → st.is_dev = false →
      c.button = some RemoteButton.POWER_ON →
      (st.status.devices.state d).powered = false →
      ¬(c.command_group = some CommandGroupType.INPUT
        ∧ (st.status.devices.state d).input = some c.id) →
      emissions ((send_db_command st c false true false).eff
          ++ (send_db_command (send_db_command st c false true false).st c false true false).eff)
        = [.irSend pulses]
      ∧ send_db_command (send_db_command st c false true false).st c false true false
          = ⟨(send_db_command st c false true false).st, [], none⟩
      ∧ ((send_db_command st c false true false).st.status.devices.state d).powered = true) := by
  refine ⟨?_, ?_, ?_⟩
  · intro hbtn hpow
    have hskip : should_skip_start st c = true := by
      rcases hbtn with h | h <;> simp [should_skip_start, hdev, h, hpow]
    simp [send_db_command, hskip]
  · intro hgrp hinp
    have hskip : should_skip_start st c = true := by
      simp [should_skip_start, hdev, hgrp, hinp]
    simp [send_db_command, hskip]
  · intro htype hir hdev_mode hb hpow hni
    have hskip : should_skip_start st c = false := by
      simp only [should_skip_start, hdev]
      by_cases hg : c.command_group = some CommandGroupType.INPUT
      · by_cases hi : (st.status.devices.state d).input = some c.id
        · exact absurd ⟨hg, hi⟩ hni
        · simp [hpow, hg, hi]
      · simp [hpow, hg]
    have htr : dispatch_transport st c false = ⟨st, [.irSend pulses], none⟩ := by
      simp [dispatch_transport, htype, send_ir_command, hdev_mode, hir]
    have h1 : send_db_command st c false true false
        = ⟨(set_state_for_command st c).st,
           [Effect.irSend pulses] ++ (set_state_for_command st c).eff,
           (set_state_for_command st c).err⟩ := by
      simp [send_db_command, hskip, htr, Res.andThen]
    have hpow1 : ((send_db_command st c false true false).st.status.devices.state d).powered
        = true := by
      rw [h1]
      exact set_state_powered_on st c d hdev hb
    have hskip2 : should_skip_start (send_db_command st c false true false).st c = true := by
      simp [should_skip_start, hdev, hb, hpow1]
    have h2 : send_db_command (send_db_command st c false true false).st c false true false
        = ⟨(send_db_command st c false true false).st, [], none⟩ := by
      rw [send_db_command, if_pos (by simp [hskip2])]
    refine ⟨?_, h2, hpow1⟩
    rw [h2, h1]
    show emissions (([Effect.irSend pulses] ++ (set_state_for_command st c).eff) ++ []) = _
    rw [List.append_nil]
    unfold emissions
    rw [List.filter_append]
    have h3 := set_state_emissions st c
    unfold emissions at h3
    rw [h3, List.append_nil]
    rfl

/-- C1 witness: dispatching the concrete POWER_ON command for device 17 with
`from_start` on a fresh controller (device 17 unpowered) emits one IR burst
across two successive dispatches, and the second dispatch is a no-op that
leaves the device powered. -/
theorem C1_from_start_suppression_witness :
    emissions ((send_db_command baseState exC1_cmd false true false).eff
        ++ (send_db_command (send_db_command baseState exC1_cmd false true false).st
              exC1_cmd false true false).eff)
      = [.irSend [9035, 4440, 611, 1633]]
    ∧ send_db_command (send_db_command baseState exC1_cmd false true false).st
        exC1_cmd false true false
        = ⟨(send_db_command baseState exC1_cmd false true false).st, [], none⟩
    ∧ ((send_db_command baseState exC1_cmd false true false).st.status.devices.state 17).powered
        = true :=
  (C1_from_start_suppression baseState exC1_cmd 17 false [9035, 4440, 611, 1633] rfl).2.2
    rfl rfl rfl rfl (by decide) (by decide)

/-- C3: a dispatch carrying `from_start` or `from_stop` that passes the
suppression checks and whose emission succeeds updates the device state by
the ordered rules — an INPUT command sets `(powered=true, input=id)`, then
POWER_ON forces powered on, POWER_OFF forces it off and POWER_TOGGLE flips
it — while a dispatch without `from_start`/`from_stop` leaves the device map
untouched. -/
theorem C3_state_update_rules (st : RCState) (c : Command) (d : Nat) (p fs fsp : Bool)
    (hdev : c.device_id = some d) :
    ((fs || fsp) = true →
      (fs && should_skip_start st c) = false →
      (fsp && should_skip_stop st c) = false →
      (send_db_command st c p fs fsp).err = none →
      (send_db_command st c p fs fsp).st.status.devices.state d = expected_state st c d)
    ∧ (send_db_command st c p false false).st.status.devices = st.status.devices := by
  constructor
  · intro hmode hs1 hs2 herr
    have hst := dispatch_transport_st st c p
    rw [send_db_command, if_neg (by simp [hs1]), if_neg (by simp [hs2])] at herr ⊢
    unfold Res.andThen at herr ⊢
    rcases he : (dispatch_transport st c p).err with _ | e
    · simp only [hmode, if_true, hst]
      exact set_state_spec st c d hdev
    · exfalso
      simp [he] at herr
  · have hst := dispatch_transport_st st c p
    rw [send_db_command]
    rw [if_neg (by simp), if_neg (by simp)]
    unfold Res.andThen
    rcases he : (dispatch_transport st c p).err with _ | e
    · simp [hst]
    · simp [hst]

/-- C3 witness: a `from_start` dispatch of a concrete IR POWER_ON command for
device 4 powers the device on per the rules, and the same dispatch without
modifiers leaves the device map untouched. -/
theorem C3_state_update_rules_witness :
    (send_db_command baseState exC3_cmd false true false).st.status.devices.state 4
      = expected_state baseState exC3_cmd 4
    ∧ (send_db_command baseState exC3_cmd false false false).st.status.devices
        = baseState.status.devices :=
  ⟨((C3_state_update_rules baseState exC3_cmd 4 false true false rfl).1
      rfl (by decide) (by decide) (by decide)),
    (C3_state_update_rules baseState exC3_cmd 4 false false false rfl).2⟩

/-! ### Store-framing lemmas (the dispatch path never writes the store) -/

/-- The state-update pass leaves the store untouched. -/
theorem set_state_for_command_db (st : RCState) (c : Command) :
    (set_state_for_command st c).st.db_commands = st.db_commands := by
  rcases hd : c.device_id with _ | d
  · simp [set_state_for_command, hd]
  · by_cases hg : c.command_group = some CommandGroupType.INPUT <;>
      rcases hb : c.button with _ | b
    · simp [set_state_for_command, hd, hg, hb, update_device_status, Res.andThen]
    · cases b <;>
        simp [set_state_for_command, hd, hg, hb, update_device_status, Res.andThen]
    · simp [set_state_for_command, hd, hg, hb, update_device_status, Res.andThen]
    · cases b <;>
        simp [set_state_for_command, hd, hg, hb, update_device_status, Res.andThen]

/-- `Res.andThen` composes store preservation. -/
theorem andThen_db {st : RCState} {r : Res} {f : RCState → Res}
    (h1 : r.st.db_commands = st.db_commands)
    (h2 : ∀ st1, (f st1).st.db_commands = st1.db_commands) :
    (r.andThen f).st.db_commands = st.db_commands := by
  unfold Res.andThen
  cases he : r.err
  · show (f r.st).st.db_commands = st.db_commands
    rw [h2 r.st, h1]
  · show r.st.db_commands = st.db_commands
    exact h1

/-- `send_db_command` leaves the store untouched. -/
theorem send_db_command_db (st : RCState) (c : Command) (p fs fsp : Bool) :
    (send_db_command st c p fs fsp).st.db_commands = st.db_commands := by
  rw [send_db_command]
  split
  · rfl
  · split
    · rfl
    · apply andThen_db
      · rw [dispatch_transport_st]
      · intro st1
        split
        · exact set_state_for_command_db ..
        · rfl

/-- `send_command` leaves the store untouched. -/
theorem send_command_db (st : RCState) (cid : Nat) (p fs fsp : Bool) :
    (send_command st cid p fs fsp).st.db_commands = st.db_commands := by
  unfold send_command
  split
  · rw [send_db_command_db]
  · split
    · rw [send_db_command_db]
    · rfl

/-! ### C2 -/

/-- C2 counterexample: controller `Active(s0)` where s0's stop macro holds a
POWER_OFF for powered device 2 (not in any skip-set); starting scene 2 —
which has NO start macro — performs no handover at all: the stop emission
the claim requires never happens (and no STOPPING status is published),
while a direct stop of s0 does emit it. -/
theorem C2_handover_counterexample :
    Effect.irSend [1, 2, 3, 4] ∉ (start_scene exC2_st 2).eff
    ∧ (start_scene exC2_st 2).err = none
    ∧ Effect.irSend [1, 2, 3, 4] ∈ (stop_current_scene exC2_st []).eff := by
  decide

/-- C2 amended: when a scene is active AND the incoming scene has a start
macro, `start_scene` performs the stop-then-start handover — it equals the
stop of the outgoing scene under the skip-set computed from the incoming
start macro, followed by the start sequence; the skip-set holds exactly the
devices of the incoming macro's POWER_ON/POWER_TOGGLE commands; and the stop
loop executes exactly the stop-macro steps whose command resolves in the
store with button POWER_OFF/POWER_TOGGLE and device absent or outside the
skip-set, each dispatched with `from_stop` and followed by its
original-index delay. -/
theorem C2_handover_amended (st st' : RCState) (sid : Nat) (s1 : Scene) (m1 : MacroRecord)
    (d : Nat) (skip ids delays : List Nat) (idx : Nat)
    (hprev : st.status.current_scene.isSome = true)
    (hlook : st.db_scenes.lookup sid = some s1)
    (hm1 : s1.macro_start = some m1) :
    (start_scene st sid
      = (stop_current_scene st (skip_set_of m1)).andThen fun st1 => start_scene_rest st1 s1)
    ∧ (d ∈ skip_set_of m1 ↔ (m1.commands.any fun c =>
          decide (c.device_id = some d) &&
          (decide (c.button = some RemoteButton.POWER_ON) ||
           decide (c.button = some RemoteButton.POWER_TOGGLE))) = true)
    ∧ (stop_macro_steps st' skip ids idx delays
        = stop_steps_exec st'
            ((List.enumFrom idx ids).filter fun pr => stop_pass st'.db_commands skip pr.2)
            delays) := by
  refine ⟨?_, ?_, ?_⟩
  · obtain ⟨cs, hcs⟩ := Option.isSome_iff_exists.mp hprev
    unfold start_scene
    simp only [hlook, hcs, hm1]
  · have key : ∀ (l : List Command) (acc : List Nat),
        d ∈ l.foldl
            (fun acc c =>
              match c.device_id with
              | some d' =>
                if c.button = some RemoteButton.POWER_TOGGLE
                    ∨ c.button = some RemoteButton.POWER_ON then
                  d' :: acc
                else acc
              | none => acc)
            acc
          ↔ d ∈ acc ∨ (l.any fun c =>
              decide (c.device_id = some d) &&
              (decide (c.button = some RemoteButton.POWER_ON) ||
               decide (c.button = some RemoteButton.POWER_TOGGLE))) = true := by
      intro l
      induction l with
      | nil => intro acc; simp
      | cons c rest ih =>
        intro acc
        rw [List.foldl_cons, List.any_cons, ih]
        rcases hd : c.device_id with _ | d'
        · simp [hd]
        · by_cases hbtn : c.button = some RemoteButton.POWER_TOGGLE
              ∨ c.button = some RemoteButton.POWER_ON
          · by_cases hdd : d = d'
            · subst hdd
              rcases hbtn with h | h <;> simp [hd, h, List.mem_cons]
            · have hdd2 : d' ≠ d := Ne.symm hdd
              rcases hbtn with h | h <;>
                simp [hd, h, List.mem_cons, hdd, hdd2]
          · have h1 : c.button ≠ some RemoteButton.POWER_TOGGLE := fun h => hbtn (Or.inl h)
            have h2 : c.button ≠ some RemoteButton.POWER_ON := fun h => hbtn (Or.inr h)
            simp [hd, hbtn, h1, h2]
    unfold skip_set_of
    rw [key m1.commands []]
    simp
  · clear hprev hlook hm1
    induction ids generalizing st' idx with
    | nil => rfl
    | cons cid rest ih =>
      rw [show List.enumFrom idx (cid :: rest)
            = (idx, cid) :: List.enumFrom (idx + 1) rest from rfl]
      rw [List.filter_cons]
      unfold stop_macro_steps
      rcases hl : st'.db_commands.lookup cid with _ | c
      · have hp : stop_pass st'.db_commands skip (idx, cid).2 = false := by
          simp [stop_pass, hl]
        rw [hp]
        simp only [if_false, Bool.false_eq_true]
        exact ih st' (idx + 1)
      · by_cases hpass : ((c.device_id.elim true fun dv => decide (dv ∉ skip)) &&
            (decide (c.button = some RemoteButton.POWER_TOGGLE) ||
             decide (c.button = some RemoteButton.POWER_OFF))) = true
        · have hp : stop_pass st'.db_commands skip (idx, cid).2 = true := by
            simp only [stop_pass, hl]
            exact hpass
          simp only [hp, hpass, if_true, eq_self_iff_true]
          unfold stop_steps_exec
          apply andThen_congr
          apply andThen_congr
          rw [ih, send_command_db]
        · have hpassf : ((c.device_id.elim true fun dv => decide (dv ∉ skip)) &&
              (decide (c.button = some RemoteButton.POWER_TOGGLE) ||
               decide (c.button = some RemoteButton.POWER_OFF))) = false := by
            simpa using hpass
          have hp : stop_pass st'.db_commands skip (idx, cid).2 = false := by
            simp only [stop_pass, hl]
            exact hpassf
          simp only [hp, hpassf, if_false, Bool.false_eq_true]
          exact ih st' (idx + 1)

/-- C2 witness: from `Active(s0)` with incoming scene 3 (start macro
powering device 1 on), the handover equality, the skip-set membership of
device 1, and the filtered stop-loop equality, at concrete inputs. -/
theorem C2_handover_amended_witness :
    (start_scene exC2_st2 3
      = (stop_current_scene exC2_st2 (skip_set_of ⟨[11], [exC2_powerOn], []⟩)).andThen
          fun st1 => start_scene_rest st1 exC2_s2)
    ∧ (1 ∈ skip_set_of (⟨[11], [exC2_powerOn], []⟩ : MacroRecord)
        ↔ ((⟨[11], [exC2_powerOn], []⟩ : MacroRecord).commands.any fun c =>
            decide (c.device_id = some 1) &&
            (decide (c.button = some RemoteButton.POWER_ON) ||
             decide (c.button = some RemoteButton.POWER_TOGGLE))) = true)
    ∧ (stop_macro_steps exC2_st2 [1] [10] 0 [] = stop_steps_exec exC2_st2
        ((List.enumFrom 0 [10]).filter fun pr => stop_pass exC2_st2.db_commands [1] pr.2) []) :=
  ⟨(C2_handover_amended exC2_st2 exC2_st2 3 exC2_s2 ⟨[11], [exC2_powerOn], []⟩ 1 [1] [10] [] 0
      (by decide) (by decide) rfl).1,
    (C2_handover_amended exC2_st2 exC2_st2 3 exC2_s2 ⟨[11], [exC2_powerOn], []⟩ 1 [1] [10] [] 0
      (by decide) (by decide) rfl).2.1,
    (C2_handover_amended exC2_st2 exC2_st2 3 exC2_s2 ⟨[11], [exC2_powerOn], []⟩ 1 [1] [10] [] 0
      (by decide) (by decide) rfl).2.2⟩

/-! ### C4 -/

/-- A run with no snapshot that keeps the state preserves the invariant. -/
theorem resOk_nil {st : RCState} (eff : List Effect) (err : Option PyError)
    (hok : statusOk st.status) (h : statusSnapshots eff = []) : ResOk ⟨st, eff, err⟩ :=
  ⟨hok, fun s hs => by rw [h] at hs; cases hs⟩

/-- Scene-field framing plus the invariant on the input gives the invariant
on the run. -/
theorem resOk_of_frames {st : RCState} {r : Res} (h : FramesScene st r)
    (hok : statusOk st.status) : ResOk r :=
  ⟨statusOk_of_sceneFieldsEq h.1 hok,
    fun s hs => statusOk_of_sceneFieldsEq (h.2 s hs) hok⟩

/-- `Res.andThen` preserves the invariant. -/
theorem andThen_resOk {r : Res} {f : RCState → Res} (h1 : ResOk r)
    (h2 : ∀ st1, statusOk st1.status → ResOk (f st1)) : ResOk (r.andThen f) := by
  unfold Res.andThen
  cases he : r.err
  · obtain ⟨ha, hb⟩ := h1
    obtain ⟨hc, hd⟩ := h2 r.st ha
    refine ⟨hc, ?_⟩
    intro s hs
    rw [show (⟨(f r.st).st, r.eff ++ (f r.st).eff, (f r.st).err⟩ : Res).eff
          = r.eff ++ (f r.st).eff from rfl, statusSnapshots_append] at hs
    rcases List.mem_append.mp hs with h | h
    · exact hb s h
    · exact hd s h
  · exact h1

/-- `_update_current_scene` with matching nullity preserves the invariant. -/
theorem update_current_scene_resOk (st : RCState) (sc : Option Scene) (s : Option SceneStatus)
    (h : s = none ↔ sc = none) : ResOk (update_current_scene st sc s) := by
  refine ⟨h, ?_⟩
  intro s' hs'
  have : s' = { st.status with current_scene := sc, scene_status := s } := by
    simpa [update_current_scene, statusSnapshots] using hs'
  rw [this]
  exact h

/-- `load_key_map` preserves the invariant. -/
theorem load_key_map_resOk (st : RCState) (k : String) (hok : statusOk st.status) :
    ResOk (load_key_map st k) := by
  refine ⟨?_, ?_⟩
  · rw [(load_key_map_status st k).1]
    exact hok
  · intro s hs
    rw [(load_key_map_status st k).2] at hs
    cases hs

/-- `Res.andThen` preserves the invariant (strong form: the continuation is
only needed at the state the run actually reaches). -/
theorem andThen_resOk_strong {r : Res} {f : RCState → Res} (h1 : ResOk r)
    (h2 : r.err = none → ResOk (f r.st)) : ResOk (r.andThen f) := by
  unfold Res.andThen
  cases he : r.err
  · obtain ⟨ha, hb⟩ := h1
    obtain ⟨hc, hd⟩ := h2 he
    refine ⟨hc, ?_⟩
    intro s hs
    rw [show (⟨(f r.st).st, r.eff ++ (f r.st).eff, (f r.st).err⟩ : Res).eff
          = r.eff ++ (f r.st).eff from rfl, statusSnapshots_append] at hs
    rcases List.mem_append.mp hs with h | h
    · exact hb s h
    · exact hd s h
  · exact h1

/-- `stop_current_scene` preserves the invariant in its final state and in
every snapshot it publishes. -/
theorem stop_current_scene_resOk (st : RCState) (skip : List Nat)
    (hok : statusOk st.status) : ResOk (stop_current_scene st skip) := by
  unfold stop_current_scene
  split
  · exact resOk_nil [] _ hok rfl
  · rename_i cs hcs
    split
    · exact resOk_nil [] _ hok rfl
    · apply andThen_resOk_strong (load_key_map_resOk st "default" hok)
      intro _
      have hcs1 : (load_key_map st "default").st.status.current_scene = some cs := by
        rw [(load_key_map_status st "default").1, hcs]
      have hok1 : statusOk (load_key_map st "default").st.status := by
        rw [(load_key_map_status st "default").1]
        exact hok
      split
      · exact resOk_nil [] _ hok1 rfl
      · have hstop : ResOk (update_current_scene_status
            (load_key_map st "default").st (some .STOPPING)) := by
          constructor
          · simp [update_current_scene_status, statusOk, hcs1]
          · intro s hs
            simp only [update_current_scene_status, statusSnapshots, List.filterMap] at hs
            simp at hs
            subst hs
            simp [statusOk, hcs1]
        apply andThen_resOk hstop
        intro st2 hok2
        apply andThen_resOk
        · split
          · split
            · exact resOk_nil [] none hok2 rfl
            · exact resOk_nil [Effect.btDisconnect _] none hok2 rfl
          · exact resOk_nil [] none hok2 rfl
        · intro st3 hok3
          apply andThen_resOk
          · split
            · exact resOk_of_frames (stop_macro_steps_frames _ st3 skip 0 _) hok3
            · exact resOk_nil [] none hok3 rfl
          · intro st4 _
            exact update_current_scene_resOk st4 none none (by simp)

/-- The start sequence preserves the invariant. -/
theorem start_scene_rest_resOk (st1 : RCState) (scene_db : Scene)
    (_hok : statusOk st1.status) : ResOk (start_scene_rest st1 scene_db) := by
  unfold start_scene_rest
  apply andThen_resOk (update_current_scene_resOk st1 (some scene_db) (some .STARTING) (by simp))
  intro st2 hok2
  apply andThen_resOk
  · split
    · split
      · exact resOk_nil [] none hok2 rfl
      · exact resOk_nil [Effect.btUnregister, Effect.btConnect _, Effect.btRegister]
          none hok2 rfl
    · exact resOk_nil [] none hok2 rfl
  · intro st3 hok3
    apply andThen_resOk
    · split
      · exact resOk_of_frames (macro_steps_frames _ st3 0 _ true false) hok3
      · exact resOk_nil [] none hok3 rfl
    · intro st4 hok4
      apply andThen_resOk
      · split
        · exact load_key_map_resOk st4 _ hok4
        · exact resOk_nil [] none hok4 rfl
      · intro st5 _
        exact update_current_scene_resOk st5 (some scene_db) (some .ACTIVE) (by simp)

/-- `start_scene` preserves the invariant. -/
theorem start_scene_resOk (st : RCState) (sid : Nat) (hok : statusOk st.status) :
    ResOk (start_scene st sid) := by
  unfold start_scene
  split
  · exact resOk_nil [] _ hok rfl
  · rename_i scene_db heq
    apply andThen_resOk
    · split
      · exact stop_current_scene_resOk st (skip_set_of _) hok
      · exact resOk_nil [] none hok rfl
    · intro st1 hok1
      exact start_scene_rest_resOk st1 scene_db hok1

/-- `set_current_scene` preserves the invariant. -/
theorem set_current_scene_resOk (st : RCState) (sid : Nat) (hok : statusOk st.status) :
    ResOk (set_current_scene st sid) := by
  unfold set_current_scene
  split
  · exact resOk_nil [] _ hok rfl
  · rename_i scene_db heq
    apply andThen_resOk
    · split
      · exact resOk_nil [Effect.btUnregister, Effect.btConnect _, Effect.btRegister]
          none hok rfl
      · exact resOk_nil [] none hok rfl
    · intro st1 hok1
      apply andThen_resOk
      · split
        · split
          · split
            · exact resOk_of_frames (set_states_for_commands_frames _ st1) hok1
            · exact resOk_nil [] none hok1 rfl
          · exact resOk_nil [] none hok1 rfl
        · exact resOk_nil [] none hok1 rfl
      · intro st2 hok2
        split
        · exact resOk_nil [] _ hok2 rfl
        · apply andThen_resOk
          · split
            · exact resOk_of_frames (set_states_for_commands_frames _ st2) hok2
            · exact resOk_nil [] none hok2 rfl
          · intro st3 hok3
            apply andThen_resOk
              (update_current_scene_resOk st3 (some scene_db) (some .ACTIVE) (by simp))
            intro st4 hok4
            split
            · exact load_key_map_resOk st4 _ hok4
            · exact resOk_nil [] none hok4 rfl

/-- Every scene operation preserves the invariant. -/
theorem run_op_resOk (st : RCState) (op : SceneOp) (hok : statusOk st.status) :
    ResOk (run_op st op) := by
  cases op with
  | start i => exact start_scene_resOk st i hok
  | setCur i => exact set_current_scene_resOk st i hok
  | stop skip => exact stop_current_scene_resOk st skip hok

/-- C4: along every sequence of scene operations (start_scene,
set_current_scene, stop_current_scene, whose status mutations all flow
through the status-update helpers) from a state satisfying the invariant,
every published status snapshot and the final status satisfy
`scene_status is null ⇔ current_scene is null`. -/
theorem C4_scene_status_invariant (ops : List SceneOp) :
    ∀ st0 : RCState, statusOk st0.status →
      (statusSnapshots (run_ops st0 ops).1).Forall statusOk
      ∧ statusOk (run_ops st0 ops).2.status := by
  induction ops with
  | nil =>
    intro st0 h
    exact ⟨trivial, h⟩
  | cons op rest ih =>
    intro st0 h
    obtain ⟨hfin, hsnaps⟩ := run_op_resOk st0 op h
    obtain ⟨ih1, ih2⟩ := ih (run_op st0 op).st hfin
    constructor
    · rw [show (run_ops st0 (op :: rest)).1
            = (run_op st0 op).eff ++ (run_ops (run_op st0 op).st rest).1 from rfl]
      rw [List.forall_iff_forall_mem, statusSnapshots_append]
      intro s hs
      rcases List.mem_append.mp hs with h' | h'
      · exact hsnaps s h'
      · exact (List.forall_iff_forall_mem.mp ih1) s h'
    · exact ih2

/-- C4 witness: from a fresh controller (invariant holds: no scene, no
status), a stop followed by a start keeps the invariant in every snapshot
and in the final status. -/
theorem C4_scene_status_invariant_witness :
    (statusSnapshots (run_ops baseState [SceneOp.stop [], SceneOp.start 1]).1).Forall statusOk
    ∧ statusOk (run_ops baseState [SceneOp.stop [], SceneOp.start 1]).2.status :=
  C4_scene_status_invariant [SceneOp.stop [], SceneOp.start 1] baseState
    ⟨fun _ => rfl, fun _ => rfl⟩


end MYEquil
